import Mathlib

/-!
Verification of the evaluator dispatch and scoring engine of
`agenta_backend/services/evaluators_service.py`.

The Python module is shallowly embedded: Python runtime values are the
`JsonValue` inductive, Python dictionaries with string keys are association
lists (`PyDict`), Python exceptions are the `PyExn` inductive threaded through
the `Except PyExn` monad, and every `try/except` block becomes an explicit
match on that monad.  Python floats in this module only ever hold exact small
rationals (sums and quotients of 0.0/1.0 scores), so they are modelled by `ℚ`.

External collaborators (the `httpx` transport, the sandboxed code executor,
the OpenAI client, the RAG scoring library and the regex engine) are outside
the repository; the spec describes them only at their interface boundary, so
their outcomes are passed in explicitly through the `ExtWorld` structure.
-/

/-- Model of a Python value as it occurs in this module: JSON-like data,
including the distinction between `int` and `float` (Python `type()` tells
them apart) and `None`. -/
inductive JsonValue where
  | null
  | bool (b : Bool)
  | int (n : Int)
  | float (q : ℚ)
  | str (s : String)
  | arr (items : List JsonValue)
  | obj (entries : List (String × JsonValue))

/-- A Python `dict` with string keys, as an insertion-ordered association
list with unique keys. -/
abbrev PyDict := List (String × JsonValue)

/-- First-match association lookup; on a dict with unique keys this is
Python's `d.get(k)` (with `None` rendered as `Option.none`). -/
def assocGet {α : Type} : List (String × α) → String → Option α
  | [], _ => none
  | (k, v) :: rest, key => if k = key then some v else assocGet rest key

/-- Python `d[k] = v`: update the value in place if the key exists (keeping
its position), otherwise append the new binding. -/
def dictInsert : PyDict → String → JsonValue → PyDict
  | [], k, v => [(k, v)]
  | (k0, v0) :: rest, k, v =>
    if k0 = k then (k0, v) :: rest else (k0, v0) :: dictInsert rest k v

/-- The keys of a dict, in insertion order (Python `d.keys()`). -/
def dictKeys (d : PyDict) : List String := d.map Prod.fst

/-- Python truthiness (`bool(v)`) for the modelled values. -/
def truthy : JsonValue → Bool
  | .null => false
  | .bool b => b
  | .int n => n != 0
  | .float q => q != 0
  | .str s => s != ""
  | .arr items => !items.isEmpty
  | .obj entries => !entries.isEmpty

/-- Python `v is None`. -/
def isNull : JsonValue → Bool
  | .null => true
  | _ => false

/-- Python `type(v).__name__` for the modelled values. -/
def pyType : JsonValue → String
  | .null => "NoneType"
  | .bool _ => "bool"
  | .int _ => "int"
  | .float _ => "float"
  | .str _ => "str"
  | .arr _ => "list"
  | .obj _ => "dict"

/-- `True` exactly when the value is a Python `dict` or `list`
(`isinstance(value, (dict, list))`). -/
def isContainer : JsonValue → Bool
  | .arr _ => true
  | .obj _ => true
  | _ => false

/-- Numeric content of a value under Python's numeric tower: `bool` counts as
`int` (`True == 1`), `int` and `float` compare by value. -/
def numVal : JsonValue → Option ℚ
  | .bool b => some (if b then 1 else 0)
  | .int n => some (n : ℚ)
  | .float q => some q
  | _ => none

/-- Scalar (non-container) cases of Python `==`. -/
def pyEqScalar (a b : JsonValue) : Bool :=
  match numVal a, numVal b with
  | some x, some y => x == y
  | _, _ =>
    match a, b with
    | .str s, .str t => s == t
    | .null, .null => true
    | _, _ => false

mutual

/-- Python `==` on modelled values.  Numbers compare through the numeric
tower, lists elementwise.  Dicts are compared entrywise in order, a
restriction of Python's order-insensitive dict equality that is exact for all
inputs arising in the claims (which only compare scalars and equal-order
dicts). -/
def pyEq : JsonValue → JsonValue → Bool
  | .arr xs, .arr ys => pyEqList xs ys
  | .obj xs, .obj ys => pyEqEntries xs ys
  | a, b => pyEqScalar a b

/-- Elementwise equality of Python lists. -/
def pyEqList : List JsonValue → List JsonValue → Bool
  | [], [] => true
  | x :: xs, y :: ys => pyEq x y && pyEqList xs ys
  | _, _ => false

/-- Entrywise equality of dict entries. -/
def pyEqEntries : List (String × JsonValue) → List (String × JsonValue) → Bool
  | [], [] => true
  | (k, v) :: xs, (k2, v2) :: ys => k == k2 && pyEq v v2 && pyEqEntries xs ys
  | _, _ => false

end

mutual

theorem pyEq_refl (v : JsonValue) : pyEq v v = true := by
  match v with
  | .arr xs => rw [pyEq]; exact pyEqList_refl xs
  | .obj xs => rw [pyEq]; exact pyEqEntries_refl xs
  | .null => rfl
  | .bool b => simp [pyEq, pyEqScalar, numVal]
  | .int n => simp [pyEq, pyEqScalar, numVal]
  | .float q => simp [pyEq, pyEqScalar, numVal]
  | .str s => simp [pyEq, pyEqScalar, numVal]

theorem pyEqList_refl (xs : List JsonValue) : pyEqList xs xs = true := by
  match xs with
  | [] => rfl
  | x :: rest => rw [pyEqList]; simp [pyEq_refl x, pyEqList_refl rest]

theorem pyEqEntries_refl (xs : List (String × JsonValue)) :
    pyEqEntries xs xs = true := by
  match xs with
  | [] => rfl
  | (k, v) :: rest =>
    rw [pyEqEntries]; simp [pyEq_refl v, pyEqEntries_refl rest]

end

/-! ### Python exceptions -/

/-- The Python exceptions that can arise in this module.  `jsonDecodeError`
models `json.JSONDecodeError`, which in Python is a *subclass* of
`ValueError`; `httpError` models `httpx.HTTPError` (including the
`HTTPStatusError` raised by `raise_for_status`). -/
inductive PyExn where
  | valueError (msg : String)
  | keyError (key : String)
  | typeError (msg : String)
  | attributeError (msg : String)
  | indexError (msg : String)
  | zeroDivisionError
  | jsonDecodeError (msg : String)
  | httpError (msg : String)
deriving DecidableEq, Repr

/-- `isinstance(e, ValueError)`: true for `ValueError` and for its subclass
`json.JSONDecodeError`. -/
def PyExn.isValueError : PyExn → Bool
  | .valueError _ => true
  | .jsonDecodeError _ => true
  | _ => false

/-- `isinstance(e, json.JSONDecodeError)`. -/
def PyExn.isJsonDecodeError : PyExn → Bool
  | .jsonDecodeError _ => true
  | _ => false

/-- `isinstance(e, httpx.HTTPError)`. -/
def PyExn.isHttpError : PyExn → Bool
  | .httpError _ => true
  | _ => false

/-- Model of Python `str(e)` on an exception. -/
def pyStr : PyExn → String
  | .valueError msg => msg
  | .keyError key => "'" ++ key ++ "'"
  | .typeError msg => msg
  | .attributeError msg => msg
  | .indexError msg => msg
  | .zeroDivisionError => "float division by zero"
  | .jsonDecodeError msg => msg
  | .httpError msg => msg

/-- Model of Python `repr(e)` on an exception. -/
def pyRepr : PyExn → String
  | .valueError msg => "ValueError(" ++ msg ++ ")"
  | .keyError key => "KeyError(" ++ key ++ ")"
  | .typeError msg => "TypeError(" ++ msg ++ ")"
  | .attributeError msg => "AttributeError(" ++ msg ++ ")"
  | .indexError msg => "IndexError(" ++ msg ++ ")"
  | .zeroDivisionError => "ZeroDivisionError(float division by zero)"
  | .jsonDecodeError msg => "JSONDecodeError(" ++ msg ++ ")"
  | .httpError msg => "HTTPError(" ++ msg ++ ")"

/-- Model of `traceback.format_exc()` for the active exception. -/
def pyFormatExc (e : PyExn) : String :=
  "Traceback (most recent call last): " ++ pyRepr e

/-! ### The Result / Error envelope

`Result` and `Error` live in `agenta_backend.models.shared_models`, which is
not part of the provided sources.  Modelled from the spec: `Result` is a
tagged union with a string discriminant `type`, an optional `value` and an
optional `error`; `Error` carries a `message` and an optional `stacktrace`;
fields that a constructor call omits default to `None`. -/

/-- Modelled from the spec: the `Error` record of
`agenta_backend.models.shared_models` (`message`, optional `stacktrace`,
defaulting to `None` when omitted). -/
structure Error where
  message : String
  stacktrace : Option String

/-- Modelled from the spec: the `Result` envelope of
`agenta_backend.models.shared_models` (`type` discriminant, optional `value`,
optional `error`, omitted fields defaulting to `None`). -/
structure Result where
  type : String
  value : Option JsonValue
  error : Option Error

/-- `Result(type="error", value=None, error=Error(message=m))`. -/
def errorResult (m : String) : Result :=
  Result.mk "error" none (some (Error.mk m none))

/-- `Result(type="error", value=None, error=Error(message=m, stacktrace=s))`. -/
def errorResultTb (m s : String) : Result :=
  Result.mk "error" none (some (Error.mk m (some s)))

/-- `try body except ...: handler` — run the body in the exception monad and
feed any escaping exception to the handler. -/
def pyTry (body : Except PyExn Result) (handler : PyExn → Result) : Result :=
  match body with
  | .ok r => r
  | .error e => handler e

theorem except_pure_eq {α : Type} (a : α) :
    (pure a : Except PyExn α) = Except.ok a := rfl

theorem except_throw_eq {α : Type} (e : PyExn) :
    (throw e : Except PyExn α) = Except.error e := rfl

theorem except_bind_ok {α β : Type} (a : α) (f : α → Except PyExn β) :
    (Except.ok a >>= f : Except PyExn β) = f a := rfl

theorem except_bind_error {α β : Type} (e : PyExn) (f : α → Except PyExn β) :
    (Except.error e >>= f : Except PyExn β) = Except.error e := rfl

/-! ### String helpers -/

/-- Model of Python `str.lower()` (ASCII case folding, which is all this
module's keys use). -/
def pyLower (s : String) : String := String.mk (s.data.map Char.toLower)

/-- Python whitespace for `str.strip()` and `int()`. -/
def isPyWs (c : Char) : Bool := c = ' ' || c = '\t' || c = '\n' || c = '\r'

/-- Model of Python `str.strip()` (remove leading and trailing whitespace). -/
def pyStrip (s : String) : String :=
  String.mk (((s.data.dropWhile isPyWs).reverse.dropWhile isPyWs).reverse)

/-- Split a character list at every occurrence of the separator. -/
def splitOnChar (sep : Char) : List Char → List (List Char)
  | [] => [[]]
  | c :: rest =>
    if c = sep then [] :: splitOnChar sep rest
    else
      match splitOnChar sep rest with
      | [] => [[c]]
      | g :: gs => (c :: g) :: gs

/-- Python `s.split(sep)` for a one-character separator (the only separators
this module uses: `"."`, `"["`, `"]"`, `","`). -/
def pySplitChar (s : String) (sep : Char) : List String :=
  (splitOnChar sep s.data).map String.mk

/-- Python `c in s` for a single character. -/
def strContainsChar (s : String) (c : Char) : Bool := s.data.contains c

/-- Decimal digit character. -/
def digitChar (n : Nat) : Char := Char.ofNat (48 + n)

/-- Decimal digits of a natural number (fuel-bounded by the number itself). -/
def natToStrAux : Nat → Nat → List Char
  | 0, _ => []
  | fuel + 1, n =>
    if n < 10 then [digitChar n]
    else natToStrAux fuel (n / 10) ++ [digitChar (n % 10)]

/-- Python `str(i)` for a natural number. -/
def natToStr (n : Nat) : String := String.mk (natToStrAux (n + 1) n)

/-- `needle in hay` for Python strings (substring containment), on the
character lists. -/
def listContainsSub (needle : List Char) : List Char → Bool
  | [] => needle.isEmpty
  | c :: rest => needle.isPrefixOf (c :: rest) || listContainsSub needle rest

/-- `needle in hay` for Python strings. -/
def strContainsSub (hay needle : String) : Bool :=
  listContainsSub needle.data hay.data

/-- Rendering of a value by Python `str()` inside an f-string, to the
precision the claims need (strings render raw, `None` as `None`). -/
def pyStrOf : JsonValue → String
  | .null => "None"
  | .bool b => if b then "True" else "False"
  | .int n => toString n
  | .float q => toString q
  | .str s => s
  | .arr _ => "[...]"
  | .obj _ => "{...}"

/-! ### A model of `json.loads`

The `json` standard library is external to the repository; `json.loads` is
modelled by a fuel-bounded recursive-descent parser over the JSON fragment
this module exchanges (null / booleans / integers / decimal floats / strings
without escape sequences / arrays / objects).  The fuel is bounded by the
input length, which suffices because every recursive step consumes input. -/

/-- Skip JSON whitespace. -/
def skipWs : List Char → List Char
  | c :: rest =>
    if c = ' ' || c = '\t' || c = '\n' || c = '\r' then skipWs rest else c :: rest
  | [] => []

/-- Leading decimal digits of a character list, and the remainder. -/
def takeDigits : List Char → (List Char × List Char)
  | [] => ([], [])
  | c :: rest =>
    if c.isDigit then
      let (ds, r) := takeDigits rest
      (c :: ds, r)
    else ([], c :: rest)

/-- Numeric value of a digit list (most significant first). -/
def digitsVal (ds : List Char) : Nat :=
  ds.foldl (fun acc c => acc * 10 + (c.toNat - 48)) 0

/-- Parse an unsigned JSON number (integer, or decimal float). -/
def parseJsonNum (cs : List Char) : Except String (JsonValue × List Char) :=
  let (ds, r) := takeDigits cs
  if ds.isEmpty then .error "Expecting value"
  else
    match r with
    | '.' :: r2 =>
      let (fs, r3) := takeDigits r2
      if fs.isEmpty then .error "Expecting value"
      else
        .ok
          (.float ((digitsVal ds : ℚ) + (digitsVal fs : ℚ) / ((10 : ℚ) ^ fs.length)),
            r3)
    | _ => .ok (.int (digitsVal ds), r)

mutual

/-- Parse one JSON value; returns the value and the unconsumed input. -/
def parseJsonVal : Nat → List Char → Except String (JsonValue × List Char)
  | 0, _ => .error "Expecting value"
  | fuel + 1, cs =>
    match skipWs cs with
    | [] => .error "Expecting value"
    | '{' :: rest => parseJsonObj fuel (skipWs rest) [] true
    | '[' :: rest => parseJsonArr fuel (skipWs rest) [] true
    | '"' :: rest =>
      let (sc, r) := rest.span (fun c => c ≠ '"')
      match r with
      | '"' :: r2 => .ok (.str (String.mk sc), r2)
      | _ => .error "Unterminated string"
    | 't' :: 'r' :: 'u' :: 'e' :: rest => .ok (.bool true, rest)
    | 'f' :: 'a' :: 'l' :: 's' :: 'e' :: rest => .ok (.bool false, rest)
    | 'n' :: 'u' :: 'l' :: 'l' :: rest => .ok (.null, rest)
    | '-' :: rest =>
      match parseJsonNum rest with
      | .ok (v, r) =>
        match v with
        | .int n => .ok (.int (-n), r)
        | .float q => .ok (.float (-q), r)
        | _ => .error "Expecting value"
      | .error m => .error m
    | c :: rest =>
      if c.isDigit then parseJsonNum (c :: rest) else .error "Expecting value"

/-- Parse the members of a JSON object after its `{`. -/
def parseJsonObj (fuel : Nat) (cs : List Char) (acc : PyDict) (first : Bool) :
    Except String (JsonValue × List Char) :=
  match fuel, cs with
  | _, '}' :: rest =>
    if first then .ok (.obj acc, rest)
    else .error "Expecting property name enclosed in double quotes"
  | 0, _ => .error "Expecting value"
  | fuel + 1, '"' :: rest =>
    let (kc, r) := rest.span (fun c => c ≠ '"')
    match r with
    | '"' :: r2 =>
      match skipWs r2 with
      | ':' :: r3 =>
        match parseJsonVal fuel (skipWs r3) with
        | .ok (v, r4) =>
          let acc2 := dictInsert acc (String.mk kc) v
          match skipWs r4 with
          | ',' :: r5 => parseJsonObj fuel (skipWs r5) acc2 false
          | '}' :: r5 => .ok (.obj acc2, r5)
          | _ => .error "Expecting comma delimiter"
        | .error m => .error m
      | _ => .error "Expecting colon delimiter"
    | _ => .error "Unterminated string"
  | _ + 1, _ => .error "Expecting property name enclosed in double quotes"

/-- Parse the elements of a JSON array after its `[`. -/
def parseJsonArr (fuel : Nat) (cs : List Char) (acc : List JsonValue)
    (first : Bool) : Except String (JsonValue × List Char) :=
  match fuel, cs with
  | _, ']' :: rest =>
    if first then .ok (.arr acc.reverse, rest) else .error "Expecting value"
  | 0, _ => .error "Expecting value"
  | fuel + 1, cs =>
    match parseJsonVal fuel cs with
    | .ok (v, r) =>
      match skipWs r with
      | ',' :: r2 => parseJsonArr fuel (skipWs r2) (v :: acc) false
      | ']' :: r2 => .ok (.arr (v :: acc).reverse, r2)
      | _ => .error "Expecting comma delimiter"
    | .error m => .error m

end

/-- Parse a whole JSON document from a string. -/
def parseJsonStr (s : String) : Except String JsonValue :=
  match parseJsonVal (4 * (s.data.length + 2)) s.data with
  | .ok (v, rest) =>
    match skipWs rest with
    | [] => .ok v
    | _ => .error "Extra data"
  | .error m => .error m

/-- Model of `json.loads(v)`: parse when the argument is a `str` (raising
`json.JSONDecodeError` on malformed input), raise `TypeError` otherwise. -/
def json_loads (v : JsonValue) : Except PyExn JsonValue :=
  match v with
  | .str s =>
    match parseJsonStr s with
    | .ok j => .ok j
    | .error m => .error (.jsonDecodeError m)
  | w =>
    .error
      (.typeError
        ("the JSON object must be str, bytes or bytearray, not " ++ pyType w))

/-! ### Subscription and helper lookups -/

/-- Python `container[index]` for the value shapes this module subscripts:
dict with a string key (`KeyError` when missing), list or string with an
integer index (negative indices count from the end, `IndexError` out of
range), everything else a `TypeError`. -/
def pyGetItem (container index : JsonValue) : Except PyExn JsonValue :=
  match container, index with
  | .obj entries, .str k =>
    match assocGet entries k with
    | some v => .ok v
    | none => .error (.keyError k)
  | .obj _, idx => .error (.keyError (pyStrOf idx))
  | .arr items, .int i =>
    let j := if i < 0 then i + items.length else i
    if h : 0 ≤ j ∧ j.toNat < items.length then
      .ok (items.get ⟨j.toNat, h.2⟩)
    else .error (.indexError "list index out of range")
  | .str s, .int i =>
    let j := if i < 0 then i + s.length else i
    if h : 0 ≤ j ∧ j.toNat < s.data.length then
      .ok (.str (String.mk [s.data.get ⟨j.toNat, h.2⟩]))
    else .error (.indexError "string index out of range")
  | c, _ =>
    .error (.typeError ("'" ++ pyType c ++ "' object is not subscriptable"))

/-- `get_correct_answer(data_point, settings_values)`: fetch the configured
reference-answer column, raising `ValueError` when the key setting is absent
(`None`) or the column is missing from the data point. -/
def get_correct_answer (data_point settings_values : PyDict) :
    Except PyExn JsonValue :=
  let correct_answer_key := (assocGet settings_values "correct_answer_key").getD .null
  if isNull correct_answer_key then
    .error (.valueError "No correct answer keys provided.")
  else
    match correct_answer_key with
    | .str k =>
      match assocGet data_point k with
      | some v => .ok v
      | none =>
        .error
          (.valueError
            ("Correct answer column '" ++ k ++ "' not found in the test set."))
    | v =>
      .error
        (.valueError
          ("Correct answer column '" ++ pyStrOf v ++
            "' not found in the test set."))

/-- `get_user_key_from_settings(settings_values, user_key)`:
`settings_values.get(user_key, {}).get("default", None)`.  A non-dict stored
value has no `.get`, which raises `AttributeError`. -/
def get_user_key_from_settings (settings_values : PyDict) (user_key : String) :
    Except PyExn JsonValue :=
  match (assocGet settings_values user_key).getD (.obj []) with
  | .obj d => .ok ((assocGet d "default").getD .null)
  | v =>
    .error
      (.attributeError ("'" ++ pyType v ++ "' object has no attribute 'get'"))

/-! ### Trace path extraction -/

/-- The administrative keys that `get_field_value_from_trace` never resolves. -/
def EXCLUDED_KEYS : List String :=
  ["start_time", "end_time", "trace_id", "span_id", "cost", "usage", "latency"]

/-- Model of Python `int(s)`: optional sign and decimal digits, with
surrounding whitespace allowed; anything else raises `ValueError`. -/
def pyIntParse (s : String) : Except PyExn Int :=
  let t := pyStrip s
  let core : Option (List Char) :=
    match t.data with
    | '-' :: ds => if ds.isEmpty then none else some ds
    | '+' :: ds => if ds.isEmpty then none else some ds
    | ds => if ds.isEmpty then none else some ds
  match core with
  | some ds =>
    if ds.all Char.isDigit then
      let n : Int := digitsVal ds
      .ok (if t.data.head? = some '-' then -n else n)
    else
      .error
        (.valueError ("invalid literal for int() with base 10: '" ++ s ++ "'"))
  | none =>
    .error
      (.valueError ("invalid literal for int() with base 10: '" ++ s ++ "'"))

/-- The plain key of a path segment: the part before `[` when the segment
carries a bracketed index, the whole segment otherwise. -/
def plainSegmentKey (field : String) : String :=
  if strContainsChar field '[' && strContainsChar field ']' then
    ((pySplitChar field '[').headD "")
  else field

/-- The bracketed index of a path segment, when present:
`int(field.split("[")[1].split("]")[0])`, whose failure propagates as the
`ValueError` that `int()` raises. -/
def segmentIdx (field : String) : Option (Except PyExn Int) :=
  if strContainsChar field '[' && strContainsChar field ']' then
    some (pyIntParse ((pySplitChar ((pySplitChar field '[').getD 1 "") ']').headD ""))
  else none

/-- The per-segment walk of `get_field_value_from_trace`.  For each segment:
compute the plain key and the optional index (a failing `int()` aborts the
whole walk through the outer handler, returning `None`); an excluded plain
key returns `None` immediately; a failing key or index lookup returns `None`
(inner `except`); otherwise continue with the addressed subtree. -/
def walkFields : JsonValue → List String → Option JsonValue
  | tree, [] => some tree
  | tree, field :: rest =>
    let key := plainSegmentKey field
    match segmentIdx field with
    | some (.error _) => none
    | idxOutcome =>
      if EXCLUDED_KEYS.contains key then none
      else
        let step : Except PyExn JsonValue := do
          let t1 ← pyGetItem tree (.str key)
          match idxOutcome with
          | some (.ok i) => pyGetItem t1 (.int i)
          | _ => pure t1
        match step with
        | .ok t2 => walkFields t2 rest
        | .error _ => none

/-- `get_field_value_from_trace(trace, key)`: split the dotted key and walk
the trace, returning `None` (absent) instead of raising on any failure. -/
def get_field_value_from_trace (trace : JsonValue) (key : String) :
    Option JsonValue :=
  walkFields trace (pySplitChar key '.')

/-! ### JSON flattening and structural comparison -/

mutual

/-- The recursive worker of `flatten_json`: descend containers, extending the
dotted path, and record every non-container leaf in the output dict. -/
def flattenAux (path : String) (acc : PyDict) : JsonValue → PyDict
  | .obj entries => flattenObjEntries path acc entries
  | .arr items => flattenArrItems path acc 0 items
  | _ => acc

/-- Flatten the entries of a dict node. -/
def flattenObjEntries (path : String) (acc : PyDict) :
    List (String × JsonValue) → PyDict
  | [] => acc
  | (k, v) :: rest =>
    let new_key := if path = "" then k else path ++ "." ++ k
    let acc2 :=
      if isContainer v then flattenAux new_key acc v
      else dictInsert acc new_key v
    flattenObjEntries path acc2 rest

/-- Flatten the items of a list node, numbering them from `i`. -/
def flattenArrItems (path : String) (acc : PyDict) (i : Nat) :
    List JsonValue → PyDict
  | [] => acc
  | v :: rest =>
    let new_key := if path = "" then natToStr i else path ++ "." ++ natToStr i
    let acc2 :=
      if isContainer v then flattenAux new_key acc v
      else dictInsert acc new_key v
    flattenArrItems path acc2 (i + 1) rest

end

/-- `flatten_json(json_obj)`: flatten a nested JSON object into a
single-level dict keyed by dotted/indexed paths. -/
def flatten_json (json_obj : JsonValue) : PyDict :=
  flattenAux "" [] json_obj

/-- The key-view comparison loop of `compare_jsons` iterates over: the keys
of the flattened ground truth, or the union with the flattened-output keys
when `predict_keys` is set.  (Python takes a set union there, whose order is
unspecified; the claims never enable `predict_keys`.) -/
def selected_keys (fgt fao : PyDict) (settings_values : PyDict) : List String :=
  let keys := dictKeys fgt
  if truthy ((assocGet settings_values "predict_keys").getD (.bool false)) then
    keys ++ (dictKeys fao).filter (fun k => !keys.contains k)
  else keys

/-- `normalize_keys(d, case_insensitive)`: lower-case every key (later
duplicates overwriting earlier ones) when case-insensitive matching is on. -/
def normalize_keys (d : PyDict) (case_insensitive : Bool) : PyDict :=
  if !case_insensitive then d
  else d.foldl (fun acc kv => dictInsert acc (pyLower kv.1) kv.2) []

/-- The inner `diff` of `compare_jsons`, applied to the singleton dicts the
loop builds: compare the first key/value pair of each side, on key name and
value type under `compare_schema_only`, on key name and value equality
otherwise. -/
def diff (ground_truth app_output : PyDict) (compare_schema_only : Bool) : ℚ :=
  let gtp := ground_truth.headD ("", .null)
  let aop := app_output.headD ("", .null)
  if compare_schema_only then
    if gtp.1 = aop.1 && pyType gtp.2 == pyType aop.2 then 1 else 0
  else if gtp.1 = aop.1 && pyEq gtp.2 aop.2 then 1 else 0

/-- One iteration of the key loop of `compare_jsons`: look the key up on both
(possibly normalized) sides; the per-key score is `diff` of the two singleton
dicts when both values are truthy, `0.0` otherwise (a present-but-falsy value
counts as absent). -/
def keyScore (key : String) (fgt fao : PyDict) (compare_schema_only : Bool) : ℚ :=
  let ground_truth_value := (assocGet fgt key).getD .null
  let llm_app_output_value := (assocGet fao key).getD .null
  if truthy ground_truth_value && truthy llm_app_output_value then
    diff [(key, ground_truth_value)] [(key, llm_app_output_value)]
      compare_schema_only
  else 0

/-- `compare_jsons(ground_truth, app_output, settings_values)`: flatten both
sides, fix the key view before normalization, normalize, sum the per-key
scores and divide by the key count — raising `ZeroDivisionError` when the key
view is empty. -/
def compare_jsons (ground_truth app_output : JsonValue)
    (settings_values : PyDict) : Except PyExn ℚ :=
  let flattened_ground_truth := flatten_json ground_truth
  let flattened_app_output := flatten_json app_output
  let keys := selected_keys flattened_ground_truth flattened_app_output
    settings_values
  let no_of_keys := keys.length
  let compare_schema_only :=
    truthy ((assocGet settings_values "compare_schema_only").getD (.bool false))
  let case_insensitive_keys :=
    truthy ((assocGet settings_values "case_insensitive_keys").getD (.bool false))
  let fgt := normalize_keys flattened_ground_truth case_insensitive_keys
  let fao := normalize_keys flattened_app_output case_insensitive_keys
  let cumulated_score :=
    (keys.map (fun k => keyScore k fgt fao compare_schema_only)).sum
  if no_of_keys = 0 then .error .zeroDivisionError
  else .ok (cumulated_score / (no_of_keys : ℚ))

/-! ### Levenshtein distance

`levenshtein_distance(s1, s2)` from the source: swap the operands so the
shorter string drives the inner loop, treat an empty second string
specially, then run the classic one-row dynamic program.  Python strings are
modelled as their character lists. -/

/-- The inner loop of the dynamic program: one pass over `s2`, where `prev`
is the suffix of the previous row starting at the current column and `last`
is the entry just written to the current row. -/
def rowAux (c1 : Char) : List Char → List Nat → Nat → List Nat
  | [], _, _ => []
  | c2 :: rest, prev, last =>
    let insertions := (prev.tail).headD 0 + 1
    let deletions := last + 1
    let substitutions := prev.headD 0 + (if c1 = c2 then 0 else 1)
    let v := min insertions (min deletions substitutions)
    v :: rowAux c1 rest prev.tail v

/-- The outer loop of the dynamic program: fold the rows over the characters
of `s1`, tracking the row index. -/
def dpLoop : List Char → List Char → List Nat → Nat → List Nat
  | [], _, prev, _ => prev
  | c1 :: rest, s2, prev, i =>
    dpLoop rest s2 ((i + 1) :: rowAux c1 s2 prev (i + 1)) (i + 1)

/-- The body of `levenshtein_distance` after the operand swap: an empty `s2`
short-circuits to `len(s1)`, otherwise run the row dynamic program starting
from `range(len(s2) + 1)` and return the last entry of the final row. -/
def levBody (s1 s2 : List Char) : Nat :=
  if s2.length = 0 then s1.length
  else (dpLoop s1 s2 (List.range (s2.length + 1)) 0).getLastD 0

/-- `levenshtein_distance(s1, s2)`: recurse once with swapped operands when
`len(s1) < len(s2)` (after which no further swap happens), then run the body. -/
def levenshtein_distance (s1 s2 : List Char) : Nat :=
  if s1.length < s2.length then levBody s2 s1 else levBody s1 s2

/-- The textbook Levenshtein recursion, used as the specification the dynamic
program is proved against. -/
def levRec : List Char → List Char → Nat
  | [], ys => ys.length
  | x :: xs, [] => (x :: xs).length
  | x :: xs, y :: ys =>
    min (levRec xs ys + (if x = y then 0 else 1))
      (min (levRec (x :: xs) ys + 1) (levRec xs (y :: ys) + 1))
termination_by a b => a.length + b.length

/-- Levenshtein distance with the recursion on the *last* characters: the
invariant shape the row dynamic program computes. -/
def dR (xs ys : List Char) : Nat := levRec xs.reverse ys.reverse

theorem levRec_nil_left (ys : List Char) : levRec [] ys = ys.length := by
  cases ys <;> simp [levRec]

theorem levRec_nil_right (xs : List Char) : levRec xs [] = xs.length := by
  cases xs <;> simp [levRec]

theorem levRec_self (s : List Char) : levRec s s = 0 := by
  induction s with
  | nil => simp [levRec]
  | cons x xs ih => simp [levRec, ih]

theorem levRec_symm : (a b : List Char) → levRec a b = levRec b a
  | [], [] => rfl
  | [], _ :: _ => by simp [levRec]
  | _ :: _, [] => by simp [levRec]
  | x :: xs, y :: ys => by
    simp only [levRec]
    rw [levRec_symm xs ys, levRec_symm (x :: xs) ys, levRec_symm xs (y :: ys)]
    by_cases h : x = y
    · simp only [h, if_pos rfl, if_pos rfl.symm]
      omega
    · have h2 : ¬ y = x := fun hh => h hh.symm
      simp only [if_neg h, if_neg h2]
      omega
termination_by a b => a.length + b.length

theorem dR_nil_left (ys : List Char) : dR [] ys = ys.length := by
  simp [dR, levRec_nil_left]

theorem dR_nil_right (xs : List Char) : dR xs [] = xs.length := by
  simp [dR, levRec_nil_right]

theorem dR_self (s : List Char) : dR s s = 0 := by simp [dR, levRec_self]

theorem dR_symm (a b : List Char) : dR a b = dR b a := by
  simp [dR, levRec_symm]

/-- The last-character recurrence satisfied by `dR`. -/
theorem dR_snoc_snoc (p q : List Char) (c1 c2 : Char) :
    dR (p ++ [c1]) (q ++ [c2]) =
      min (dR p (q ++ [c2]) + 1)
        (min (dR (p ++ [c1]) q + 1) (dR p q + (if c1 = c2 then 0 else 1))) := by
  simp only [dR, List.reverse_append, List.reverse_cons, List.reverse_nil,
    List.nil_append, List.singleton_append]
  rw [levRec]
  by_cases h : c1 = c2
  · simp only [h, if_pos rfl]
    omega
  · simp only [if_neg h]
    omega

/-- The inner loop computes the next row of last-character distances:
starting from the previous row restricted to the columns at and after `q`,
it produces the current row entries for the columns strictly after `q`. -/
theorem rowAux_spec (c1 : Char) (p : List Char) :
    ∀ (cs q : List Char),
      rowAux c1 cs
          ((List.range (cs.length + 1)).map (fun j => dR p (q ++ cs.take j)))
          (dR (p ++ [c1]) q)
        = (List.range cs.length).map
            (fun j => dR (p ++ [c1]) (q ++ cs.take (j + 1))) := by
  intro cs
  induction cs with
  | nil => intro q; simp [rowAux]
  | cons c2 rest ih =>
    intro q
    simp only [List.length_cons]
    rw [show (List.range (rest.length + 1 + 1)).map
          (fun j => dR p (q ++ (c2 :: rest).take j))
        = dR p q ::
          (List.range (rest.length + 1)).map
            (fun j => dR p (q ++ (c2 :: rest).take (j + 1))) from by
      simp [List.range_succ_eq_map, List.map_map, Function.comp]]
    rw [rowAux]
    simp only [List.tail_cons, List.headD_cons]
    have hrow :
        (List.range (rest.length + 1)).map
            (fun j => dR p (q ++ (c2 :: rest).take (j + 1)))
          = (List.range (rest.length + 1)).map
              (fun j => dR p ((q ++ [c2]) ++ rest.take j)) := by
      apply List.map_congr_left
      intro j _
      simp [List.take_cons, List.append_assoc]
    have hhead :
        ((List.range (rest.length + 1)).map
            (fun j => dR p ((q ++ [c2]) ++ rest.take j))).headD 0
          = dR p (q ++ [c2]) := by
      simp [List.range_succ_eq_map, List.map_map]
    have hv :
        min
            (((List.range (rest.length + 1)).map
                (fun j => dR p ((q ++ [c2]) ++ rest.take j))).headD 0 + 1)
            (min (dR (p ++ [c1]) q + 1)
              (dR p q + (if c1 = c2 then 0 else 1)))
          = dR (p ++ [c1]) (q ++ [c2]) := by
      rw [hhead, dR_snoc_snoc]
    rw [hrow, hv, ih (q ++ [c2])]
    rw [show (List.range (rest.length + 1)).map
          (fun j => dR (p ++ [c1]) (q ++ (c2 :: rest).take (j + 1)))
        = dR (p ++ [c1]) (q ++ [c2]) ::
          (List.range rest.length).map
            (fun j => dR (p ++ [c1]) ((q ++ [c2]) ++ rest.take (j + 1))) from by
      simp [List.range_succ_eq_map, List.map_map, Function.comp,
        List.take_cons, List.append_assoc]]

/-- The outer loop preserves the row invariant: starting from the row of
distances for the processed prefix `p`, folding the remaining characters
produces the row for `p ++ xs`. -/
theorem dpLoop_spec (s2 : List Char) :
    ∀ (xs p : List Char),
      dpLoop xs s2 ((List.range (s2.length + 1)).map (fun j => dR p (s2.take j)))
          p.length
        = (List.range (s2.length + 1)).map (fun j => dR (p ++ xs) (s2.take j)) := by
  intro xs
  induction xs with
  | nil => intro p; simp [dpLoop]
  | cons c1 rest ih =>
    intro p
    rw [dpLoop]
    have hrow :
        (p.length + 1) ::
            rowAux c1 s2
              ((List.range (s2.length + 1)).map (fun j => dR p (s2.take j)))
              (p.length + 1)
          = (List.range (s2.length + 1)).map
              (fun j => dR (p ++ [c1]) (s2.take j)) := by
      have hlast : p.length + 1 = dR (p ++ [c1]) [] := by
        rw [dR_nil_right]; simp
      have hprev :
          (List.range (s2.length + 1)).map (fun j => dR p (s2.take j))
            = (List.range (s2.length + 1)).map
                (fun j => dR p ([] ++ s2.take j)) := by
        simp
      rw [hlast, hprev, rowAux_spec c1 p s2 []]
      rw [show (List.range (s2.length + 1)).map
            (fun j => dR (p ++ [c1]) (s2.take j))
          = dR (p ++ [c1]) [] ::
            (List.range s2.length).map
              (fun j => dR (p ++ [c1]) ([] ++ s2.take (j + 1))) from by
        simp [List.range_succ_eq_map, List.map_map, Function.comp, dR_nil_right]]
    rw [hrow]
    have hlen : p.length + 1 = (p ++ [c1]).length := by simp
    rw [hlen, ih (p ++ [c1])]
    simp

/-- The body of the Python function computes the last-character recursion. -/
theorem levBody_eq_dR (s1 s2 : List Char) : levBody s1 s2 = dR s1 s2 := by
  rw [levBody]
  by_cases h : s2.length = 0
  · rw [if_pos h]
    have : s2 = [] := List.length_eq_zero.mp h
    rw [this, dR_nil_right]
  · rw [if_neg h]
    have hinit :
        (List.range (s2.length + 1))
          = (List.range (s2.length + 1)).map (fun j => dR [] (s2.take j)) := by
      rw [show (fun j => dR [] (s2.take j)) = fun j => (s2.take j).length from by
        funext j; rw [dR_nil_left]]
      rw [show (List.range (s2.length + 1)).map (fun j => (s2.take j).length)
          = (List.range (s2.length + 1)).map (fun j => j) from by
        apply List.map_congr_left
        intro j hj
        simp only [List.length_take]
        have := List.mem_range.mp hj
        omega]
      simp
    rw [hinit]
    have h0 : (0 : Nat) = ([] : List Char).length := rfl
    rw [h0, dpLoop_spec s2 s1 [], List.nil_append]
    rw [show (List.range (s2.length + 1)).map (fun j => dR s1 (s2.take j))
        = ((List.range s2.length).map (fun j => dR s1 (s2.take j))) ++
            [dR s1 (s2.take s2.length)] from by
      rw [List.range_succ, List.map_append, List.map_cons, List.map_nil]]
    rw [List.getLastD_concat, List.take_length]

/-- `levenshtein_distance` computes the (symmetric) specification distance. -/
theorem levenshtein_eq_dR (s1 s2 : List Char) :
    levenshtein_distance s1 s2 = dR s1 s2 := by
  rw [levenshtein_distance]
  by_cases h : s1.length < s2.length
  · rw [if_pos h, levBody_eq_dR, dR_symm]
  · rw [if_neg h, levBody_eq_dR]

/-! ### The uniform evaluator arguments and the external world -/

/-- The uniform argument bundle every evaluator receives.  `output` is a
string for the text evaluators and a trace mapping for the RAG evaluators, so
it is passed as a dynamic value. -/
structure EvalArgs where
  inputs : PyDict
  output : JsonValue
  data_point : PyDict
  app_params : PyDict
  settings_values : PyDict
  lm_providers_keys : PyDict

/-- Modelled from the spec: the outcomes of the external collaborators the
spec places at the interface boundary (webhook transport plus response
decoding, sandboxed code execution, chat completion, embedding similarity,
RAG scoring, regex search engine).  Each evaluation call reads them as given;
a transport/decoding failure appears as the exception the Python client
raises. -/
structure ExtWorld where
  webhookPost : Except PyExn JsonValue
  sandboxRun : Except PyExn JsonValue
  chatCompletion : Except PyExn String
  semanticScore : Except PyExn ℚ
  ragFaithfulnessScore : Except PyExn ℚ
  ragContextRelevancyScore : Except PyExn ℚ
  regexSearch : String → String → Bool

/-- Python `d[k]` on a settings-style dict: `KeyError` when absent. -/
def dictGetItem (d : PyDict) (k : String) : Except PyExn JsonValue :=
  match assocGet d k with
  | some v => .ok v
  | none => .error (.keyError k)

/-- Use a value as a string via one of its `str` methods; a non-string
raises `AttributeError` for that method. -/
def asStrAttr (v : JsonValue) (attr : String) : Except PyExn String :=
  match v with
  | .str s => .ok s
  | w =>
    .error
      (.attributeError
        ("'" ++ pyType w ++ "' object has no attribute '" ++ attr ++ "'"))

/-- Python `sub in hay` (`__contains__`): substring test on strings,
elementwise equality on lists, key membership on dicts; a non-string needle
on a string haystack, or a non-iterable haystack, raises `TypeError`. -/
def pyInStr (sub hay : JsonValue) : Except PyExn Bool :=
  match hay with
  | .str h =>
    match sub with
    | .str s => .ok (strContainsSub h s)
    | w =>
      .error
        (.typeError
          ("'in <string>' requires string as left operand, not " ++ pyType w))
  | .arr items => .ok (items.any (fun v => pyEq sub v))
  | .obj entries =>
    match sub with
    | .str s => .ok ((dictKeys entries).contains s)
    | _ => .ok false
  | w =>
    .error (.typeError ("argument of type '" ++ pyType w ++ "' is not iterable"))

/-- Python `v < x` against a numeric bound: `TypeError` for non-numbers. -/
def pyLtNum (v : JsonValue) (x : ℚ) : Except PyExn Bool :=
  match numVal v with
  | some q => .ok (decide (q < x))
  | none =>
    .error
      (.typeError
        ("'<' not supported between instances of '" ++ pyType v ++
          "' and 'int'"))

/-- Python `v > x` against a numeric bound: `TypeError` for non-numbers. -/
def pyGtNum (v : JsonValue) (x : ℚ) : Except PyExn Bool :=
  match numVal v with
  | some q => .ok (decide (q > x))
  | none =>
    .error
      (.typeError
        ("'>' not supported between instances of '" ++ pyType v ++
          "' and 'int'"))

/-- Python `n <= v` for an integer left operand: `TypeError` for non-numeric
right operands. -/
def pyLeNum (n : Int) (v : JsonValue) : Except PyExn Bool :=
  match numVal v with
  | some q => .ok (decide ((n : ℚ) ≤ q))
  | none =>
    .error
      (.typeError
        ("'<=' not supported between instances of 'int' and '" ++
          pyType v ++ "'"))

/-- Python `q > v` for a float left operand: `TypeError` for non-numeric
right operands. -/
def pyGtNumQ (q : ℚ) (v : JsonValue) : Except PyExn Bool :=
  match numVal v with
  | some t => .ok (decide (q > t))
  | none =>
    .error
      (.typeError
        ("'>' not supported between instances of 'float' and '" ++
          pyType v ++ "'"))

/-- Python `s.startswith(pfx)`. -/
def pyStartsWith (out pfx : JsonValue) : Except PyExn Bool :=
  match out with
  | .str o =>
    match pfx with
    | .str p => .ok (p.data.isPrefixOf o.data)
    | w =>
      .error
        (.typeError
          ("startswith first arg must be str or a tuple of str, not " ++
            pyType w))
  | w =>
    .error
      (.attributeError
        ("'" ++ pyType w ++ "' object has no attribute 'startswith'"))

/-- Python `s.endswith(sfx)`. -/
def pyEndsWith (out sfx : JsonValue) : Except PyExn Bool :=
  match out with
  | .str o =>
    match sfx with
    | .str p => .ok (p.data.reverse.isPrefixOf o.data.reverse)
    | w =>
      .error
        (.typeError
          ("endswith first arg must be str or a tuple of str, not " ++
            pyType w))
  | w =>
    .error
      (.attributeError
        ("'" ++ pyType w ++ "' object has no attribute 'endswith'"))

/-- Lazy Python `any(sub in hay for sub in subs)`. -/
def pyAnyIn (subs : List String) (hay : JsonValue) : Except PyExn Bool :=
  match subs with
  | [] => .ok false
  | s :: rest => do
    let b ← pyInStr (.str s) hay
    if b then pure true else pyAnyIn rest hay

/-- Lazy Python `all(sub in hay for sub in subs)`. -/
def pyAllIn (subs : List String) (hay : JsonValue) : Except PyExn Bool :=
  match subs with
  | [] => .ok true
  | s :: rest => do
    let b ← pyInStr (.str s) hay
    if b then pyAllIn rest hay else pure false

/-- Python `s.split()` with no argument: split on whitespace runs, dropping
empty fields. -/
def pyWords (s : String) : List String :=
  ((splitOnChar ' ' (s.data.map (fun c => if isPyWs c then ' ' else c))).filter
      (fun w => !w.isEmpty)).map String.mk

/-- Resolve a RAG field name against the trace: `key.split(".")` needs a
string key (line 70 of the source sits before the `try`, so a non-string key
raises `AttributeError` out of `get_field_value_from_trace`). -/
def traceFieldValue (trace key : JsonValue) : Except PyExn (Option JsonValue) :=
  match key with
  | .str s => .ok (get_field_value_from_trace trace s)
  | v =>
    .error
      (.attributeError ("'" ++ pyType v ++ "' object has no attribute 'split'"))

/-- Python `x is None` after a trace lookup: absent, or present and `None`. -/
def optIsNone (o : Option JsonValue) : Bool :=
  match o with
  | none => true
  | some v => isNull v

/-! ### The evaluators -/

/-- The uniform evaluator shape. -/
abbrev EvalFn := EvalArgs → ExtWorld → Result

/-- `auto_exact_match`: boolean equality of output and reference answer;
`ValueError` (validation) becomes a plain error message, anything else a
generic message with a stacktrace. -/
def auto_exact_match : EvalFn := fun args _ =>
  pyTry
    (do
      let correct_answer ← get_correct_answer args.data_point args.settings_values
      let exact_match := pyEq args.output correct_answer
      pure (Result.mk "bool" (some (.bool exact_match)) none))
    (fun e =>
      if e.isValueError then errorResult (pyStr e)
      else errorResultTb "Error during Auto Exact Match evaluation" (pyFormatExc e))

/-- `re.compile(pattern, re.IGNORECASE)`: a non-string pattern raises
`TypeError`. -/
def reCompilePattern (pat : JsonValue) : Except PyExn String :=
  match pat with
  | .str p => .ok p
  | _ => .error (.typeError "first argument must be string or compiled pattern")

/-- `pattern.search(output)`: a non-string target raises `TypeError`. -/
def reSearchTarget (out : JsonValue) : Except PyExn String :=
  match out with
  | .str o => .ok o
  | w =>
    .error
      (.typeError
        ("expected string or bytes-like object, got '" ++ pyType w ++ "'"))

/-- `response_data.get("score", None)`: a non-dict response has no `.get`. -/
def webhookScore (response_data : JsonValue) : Except PyExn JsonValue :=
  match response_data with
  | .obj d => .ok ((assocGet d "score").getD .null)
  | v =>
    .error
      (.attributeError ("'" ++ pyType v ++ "' object has no attribute 'get'"))

/-- The `if not case_sensitive: output = output.lower(); other = other.lower()`
prologue shared by the substring evaluators. -/
def caseFoldPair (out other : JsonValue) (case_sensitive : Bool) :
    Except PyExn (JsonValue × JsonValue) :=
  if case_sensitive then pure (out, other)
  else do
    let o ← asStrAttr out "lower"
    let p ← asStrAttr other "lower"
    pure (JsonValue.str (pyLower o), JsonValue.str (pyLower p))

/-- The case-folding prologue of `auto_contains_any` / `auto_contains_all`. -/
def caseFoldList (out : JsonValue) (subs : List String)
    (case_sensitive : Bool) : Except PyExn (JsonValue × List String) :=
  if case_sensitive then pure (out, subs)
  else do
    let o ← asStrAttr out "lower"
    pure (JsonValue.str (pyLower o), subs.map pyLower)

/-- The inner `try` of `auto_contains_json`: slice from the first `{` to the
last `}` and attempt a JSON parse; a missing brace (`ValueError` from
`index`/`rindex`) or a parse failure yields `False`; a non-string,
non-list output has no `.index` and raises `AttributeError`. -/
def containsJsonOf (output : JsonValue) : Except PyExn Bool :=
  match output with
  | .str s =>
    let cs := s.data
    match cs.findIdx? (fun c => c = '{'), cs.reverse.findIdx? (fun c => c = '}') with
    | some start_index, some ridx =>
      let end_index := cs.length - 1 - ridx + 1
      let potential_json :=
        String.mk ((cs.drop start_index).take (end_index - start_index))
      match parseJsonStr potential_json with
      | .ok _ => .ok true
      | .error _ => .ok false
    | _, _ => .ok false
  | .arr _ => .ok false
  | w =>
    .error
      (.attributeError ("'" ++ pyType w ++ "' object has no attribute 'index'"))

/-- `len(s1)` / `len(s2)` of `levenshtein_distance` require sized, indexable
operands; the evaluator passes the output and the reference answer, modelled
for strings (a non-string raises `TypeError` at `len`). -/
def asLevenshteinStrings (output correct_answer : JsonValue) :
    Except PyExn (String × String) :=
  match output, correct_answer with
  | .str o, .str c => .ok (o, c)
  | o, _ => .error (.typeError ("object of type '" ++ pyType o ++ "' has no len()"))

/-- Python integer division `a / b` of two lengths: `ZeroDivisionError` when
the divisor is zero. -/
def pyIntDiv (a b : Nat) : Except PyExn ℚ :=
  if b = 0 then .error .zeroDivisionError else .ok ((a : ℚ) / (b : ℚ))

/-- `if cond: raise e` as a monadic step. -/
def pyAssertNot (cond : Bool) (e : PyExn) : Except PyExn Unit :=
  if cond then .error e else .ok ()

/-- `auto_regex_test`: compile the configured pattern case-insensitively,
search the output, compare the boolean outcome with `regex_should_match`. -/
def auto_regex_test : EvalFn := fun args ext =>
  pyTry
    (do
      let pat ← dictGetItem args.settings_values "regex_pattern"
      let patS ← reCompilePattern pat
      let outS ← reSearchTarget args.output
      let expected ← dictGetItem args.settings_values "regex_should_match"
      pure
        (Result.mk "bool"
          (some (.bool (pyEq (.bool (ext.regexSearch patS outS)) expected)))
          none))
    (fun e => errorResultTb "Error during Auto Regex evaluation" (pyFormatExc e))

/-- `field_match_test`: parse the output as JSON and compare the configured
field with the reference answer.  The first handler catches `ValueError` —
and therefore also `json.JSONDecodeError`, its subclass — producing an error
Result; every *other* failure (missing field, missing `json_field` setting,
non-string output) degrades to a `False` boolean result. -/
def field_match_test : EvalFn := fun args _ =>
  pyTry
    (do
      let correct_answer ← get_correct_answer args.data_point args.settings_values
      let output_json ← json_loads args.output
      let field ← dictGetItem args.settings_values "json_field"
      let field_value ← pyGetItem output_json field
      pure (Result.mk "bool" (some (.bool (pyEq field_value correct_answer))) none))
    (fun e =>
      if e.isValueError then errorResult (pyStr e)
      else Result.mk "bool" (some (.bool false)) none)

/-- `auto_webhook_test`: POST to the configured webhook and classify the
response: a missing (`None`) `score` or a numeric score outside `[0,1]`
returns a dedicated contract-violation error inside the `try` block; the
handlers classify `httpx.HTTPError`, `json.JSONDecodeError` and any other
exception separately. -/
def auto_webhook_test : EvalFn := fun args ext =>
  pyTry
    (do
      let _correct_answer ←
        get_correct_answer args.data_point args.settings_values
      let _url ← dictGetItem args.settings_values "webhook_url"
      let response_data ← ext.webhookPost
      let score ← webhookScore response_data
      if isNull score then
        pure
          (errorResult
            "Error during Auto Webhook evaluation; Webhook did not return a score")
      else do
        let lt ← pyLtNum score 0
        if lt then
          pure
            (errorResult
              "Error during Auto Webhook evaluation; Webhook returned an invalid score. Score must be between 0 and 1")
        else do
          let gt ← pyGtNum score 1
          if gt then
            pure
              (errorResult
                "Error during Auto Webhook evaluation; Webhook returned an invalid score. Score must be between 0 and 1")
          else pure (Result.mk "number" (some score) none))
    (fun e =>
      if e.isHttpError then
        errorResultTb ("[webhook evaluation] HTTP - " ++ pyRepr e) (pyFormatExc e)
      else if e.isJsonDecodeError then
        errorResultTb ("[webhook evaluation] JSON - " ++ pyRepr e) (pyFormatExc e)
      else
        errorResultTb ("[webhook evaluation] Exception - " ++ pyRepr e ++ " ")
          (pyFormatExc e))

/-- `auto_custom_code_run`: forward to the sandboxed executor and wrap its
result as a number. -/
def auto_custom_code_run : EvalFn := fun args ext =>
  pyTry
    (do
      let _code ← dictGetItem args.settings_values "code"
      let result ← ext.sandboxRun
      pure (Result.mk "number" (some result) none))
    (fun e =>
      errorResultTb "Error during Auto Custom Code Evaluation" (pyFormatExc e))

/-- `auto_ai_critique`: build the critique prompt and return the raw chat
completion as a text result. -/
def auto_ai_critique : EvalFn := fun args ext =>
  pyTry
    (do
      let _correct_answer ←
        get_correct_answer args.data_point args.settings_values
      let _key ← dictGetItem args.lm_providers_keys "OPENAI_API_KEY"
      let _prompt_template ← dictGetItem args.settings_values "prompt_template"
      let completion ← ext.chatCompletion
      pure (Result.mk "text" (some (.str (pyStrip completion))) none))
    (fun e => errorResultTb "Error during Auto AI Critique" (pyFormatExc e))

/-- `auto_starts_with`: prefix test with optional case folding. -/
def auto_starts_with : EvalFn := fun args _ =>
  pyTry
    (do
      let pair ←
        caseFoldPair args.output
          ((assocGet args.settings_values "prefix").getD (.str ""))
          (truthy
            ((assocGet args.settings_values "case_sensitive").getD (.bool true)))
      let b ← pyStartsWith pair.1 pair.2
      pure (Result.mk "bool" (some (.bool b)) none))
    (fun e => errorResultTb "Error during Starts With evaluation" (pyFormatExc e))

/-- `auto_ends_with`: suffix test with optional case folding. -/
def auto_ends_with : EvalFn := fun args _ =>
  pyTry
    (do
      let pair ←
        caseFoldPair args.output
          ((assocGet args.settings_values "suffix").getD (.str ""))
          (truthy
            ((assocGet args.settings_values "case_sensitive").getD (.bool true)))
      let b ← pyEndsWith pair.1 pair.2
      pure (Result.mk "bool" (some (.bool b)) none))
    (fun e => errorResultTb "Error during Ends With evaluation" (pyFormatExc e))

/-- `auto_contains`: substring test with optional case folding. -/
def auto_contains : EvalFn := fun args _ =>
  pyTry
    (do
      let pair ←
        caseFoldPair args.output
          ((assocGet args.settings_values "substring").getD (.str ""))
          (truthy
            ((assocGet args.settings_values "case_sensitive").getD (.bool true)))
      let b ← pyInStr pair.2 pair.1
      pure (Result.mk "bool" (some (.bool b)) none))
    (fun e => errorResultTb "Error during Contains evaluation" (pyFormatExc e))

/-- `auto_contains_any`: split the comma-separated candidate substrings, trim
them, optionally case fold, and test whether any occurs in the output. -/
def auto_contains_any : EvalFn := fun args _ =>
  pyTry
    (do
      let ss ←
        asStrAttr ((assocGet args.settings_values "substrings").getD (.str ""))
          "split"
      let pair ←
        caseFoldList args.output ((pySplitChar ss ',').map pyStrip)
          (truthy
            ((assocGet args.settings_values "case_sensitive").getD (.bool true)))
      let b ← pyAnyIn pair.2 pair.1
      pure (Result.mk "bool" (some (.bool b)) none))
    (fun e => errorResultTb "Error during Contains Any evaluation" (pyFormatExc e))

/-- `auto_contains_all`: like `auto_contains_any` with conjunction. -/
def auto_contains_all : EvalFn := fun args _ =>
  pyTry
    (do
      let ss ←
        asStrAttr ((assocGet args.settings_values "substrings").getD (.str ""))
          "split"
      let pair ←
        caseFoldList args.output ((pySplitChar ss ',').map pyStrip)
          (truthy
            ((assocGet args.settings_values "case_sensitive").getD (.bool true)))
      let b ← pyAllIn pair.2 pair.1
      pure (Result.mk "bool" (some (.bool b)) none))
    (fun e => errorResultTb "Error during Contains All evaluation" (pyFormatExc e))

/-- `auto_contains_json`: slice from the first `{` to the last `}` and test
whether the slice parses as JSON; a missing brace (`ValueError` from
`index`/`rindex`) or a parse failure yields `False` from the inner handler. -/
def auto_contains_json : EvalFn := fun args _ =>
  pyTry
    (do
      let contains_json ← containsJsonOf args.output
      pure (Result.mk "bool" (some (.bool contains_json)) none))
    (fun e => errorResultTb "Error during Contains JSON evaluation" (pyFormatExc e))

/-- `auto_json_diff`: structural comparison of the parsed output against the
reference answer; every failure (validation, parse, zero-key division)
collapses into the single generic handler. -/
def auto_json_diff : EvalFn := fun args _ =>
  pyTry
    (do
      let correct_answer ← get_correct_answer args.data_point args.settings_values
      let parsed ← json_loads args.output
      let average_score ← compare_jsons correct_answer parsed args.settings_values
      pure (Result.mk "number" (some (.float average_score)) none))
    (fun e => errorResultTb "Error during JSON diff evaluation" (pyFormatExc e))

/-- `auto_semantic_similarity`: embedding similarity of output and reference
answer through the external embedding service. -/
def auto_semantic_similarity : EvalFn := fun args ext =>
  pyTry
    (do
      let _key ← dictGetItem args.lm_providers_keys "OPENAI_API_KEY"
      let _correct_answer ←
        get_correct_answer args.data_point args.settings_values
      let score ← ext.semanticScore
      pure (Result.mk "number" (some (.float score)) none))
    (fun e =>
      errorResultTb "Error during Auto Semantic Similarity" (pyFormatExc e))

/-- `auto_levenshtein_distance`: edit distance between output and reference
answer; with a `threshold` setting the result is the boolean
`distance <= threshold`, otherwise the raw distance. -/
def auto_levenshtein_distance : EvalFn := fun args _ =>
  pyTry
    (do
      let correct_answer ← get_correct_answer args.data_point args.settings_values
      let pair ← asLevenshteinStrings args.output correct_answer
      if (assocGet args.settings_values "threshold").isSome then do
        let is_within_threshold ←
          pyLeNum (levenshtein_distance pair.1.data pair.2.data)
            ((assocGet args.settings_values "threshold").getD .null)
        pure (Result.mk "bool" (some (.bool is_within_threshold)) none)
      else
        pure
          (Result.mk "number"
            (some (.int (levenshtein_distance pair.1.data pair.2.data))) none))
    (fun e =>
      if e.isValueError then errorResult (pyStr e)
      else
        errorResultTb "Error during Levenshtein threshold evaluation"
          (pyFormatExc e))

/-- `auto_similarity_match`: Jaccard similarity of the whitespace token sets
of output and reference answer, compared strictly against
`similarity_threshold`.  An empty union raises `ZeroDivisionError` into the
generic handler. -/
def auto_similarity_match : EvalFn := fun args _ =>
  pyTry
    (do
      let correct_answer ← get_correct_answer args.data_point args.settings_values
      let o ← asStrAttr args.output "split"
      let c ← asStrAttr correct_answer "split"
      let similarity ←
        pyIntDiv
          (((pyWords o).dedup.filter
              (fun w => (pyWords c).dedup.contains w)).length)
          (((pyWords o).dedup ++
              (pyWords c).dedup.filter
                (fun w => !(pyWords o).dedup.contains w)).length)
      let threshold ← dictGetItem args.settings_values "similarity_threshold"
      let is_similar ← pyGtNumQ similarity threshold
      pure (Result.mk "bool" (some (.bool is_similar)) none))
    (fun e =>
      if e.isValueError then errorResult (pyStr e)
      else
        errorResultTb "Error during Auto Similarity Match evaluation"
          (pyFormatExc e))

/-- The validation message of the RAG evaluators for missing configuration
keys. -/
def ragMissingConfigMsg : String :=
  "Missing required configuration keys: 'question_key', 'answer_key', or 'contexts_key'. Please check your settings and try again."

/-- The validation message of the RAG evaluators for missing trace values. -/
def ragMissingValuesMsg : String :=
  "Missing required key values for rag_evaluator: 'question_value', 'answer_value', or 'contexts_value'. Please check your settings and try again."

/-- `rag_faithfulness`: resolve the three configured field names, extract
them from the trace, and delegate the scoring; a missing configuration key or
a missing trace value raises a `ValueError` that the (single, generic)
handler converts into an error with a stacktrace. -/
def rag_faithfulness : EvalFn := fun args ext =>
  pyTry
    (do
      let question_key ←
        get_user_key_from_settings args.settings_values "question_key"
      let answer_key ←
        get_user_key_from_settings args.settings_values "answer_key"
      let contexts_key ←
        get_user_key_from_settings args.settings_values "contexts_key"
      let _check ←
        pyAssertNot
          (isNull question_key || isNull answer_key || isNull contexts_key)
          (.valueError ragMissingConfigMsg)
      let question_value ← traceFieldValue args.output question_key
      let answer_value ← traceFieldValue args.output answer_key
      let contexts_value ← traceFieldValue args.output contexts_key
      let _check2 ←
        pyAssertNot
          (optIsNone question_value || optIsNone answer_value ||
            optIsNone contexts_value)
          (.valueError ragMissingValuesMsg)
      let score ← ext.ragFaithfulnessScore
      pure (Result.mk "number" (some (.float score)) none))
    (fun e =>
      errorResultTb "Error during RAG Faithfulness evaluation" (pyFormatExc e))

/-- `rag_context_relevancy`: as `rag_faithfulness` with the context-relevancy
scorer. -/
def rag_context_relevancy : EvalFn := fun args ext =>
  pyTry
    (do
      let question_key ←
        get_user_key_from_settings args.settings_values "question_key"
      let answer_key ←
        get_user_key_from_settings args.settings_values "answer_key"
      let contexts_key ←
        get_user_key_from_settings args.settings_values "contexts_key"
      let _check ←
        pyAssertNot
          (isNull question_key || isNull answer_key || isNull contexts_key)
          (.valueError ragMissingConfigMsg)
      let question_value ← traceFieldValue args.output question_key
      let answer_value ← traceFieldValue args.output answer_key
      let contexts_value ← traceFieldValue args.output contexts_key
      let _check2 ←
        pyAssertNot
          (optIsNone question_value || optIsNone answer_value ||
            optIsNone contexts_value)
          (.valueError ragMissingValuesMsg)
      let score ← ext.ragContextRelevancyScore
      pure (Result.mk "number" (some (.float score)) none))
    (fun e =>
      errorResultTb "Error during RAG Context Relevancy evaluation"
        (pyFormatExc e))

/-! ### Registry and dispatcher -/

/-- `EVALUATOR_FUNCTIONS`: the static registry mapping evaluator keys to
strategies, in source order. -/
def EVALUATOR_FUNCTIONS : List (String × EvalFn) :=
  [("auto_exact_match", auto_exact_match),
   ("auto_regex_test", auto_regex_test),
   ("field_match_test", field_match_test),
   ("auto_webhook_test", auto_webhook_test),
   ("auto_custom_code_run", auto_custom_code_run),
   ("auto_ai_critique", auto_ai_critique),
   ("auto_starts_with", auto_starts_with),
   ("auto_ends_with", auto_ends_with),
   ("auto_contains", auto_contains),
   ("auto_contains_any", auto_contains_any),
   ("auto_contains_all", auto_contains_all),
   ("auto_contains_json", auto_contains_json),
   ("auto_json_diff", auto_json_diff),
   ("auto_semantic_similarity", auto_semantic_similarity),
   ("auto_levenshtein_distance", auto_levenshtein_distance),
   ("auto_similarity_match", auto_similarity_match),
   ("rag_faithfulness", rag_faithfulness),
   ("rag_context_relevancy", rag_context_relevancy)]

/-- The dispatcher's outer containment layer (the `try/except` around the
strategy call in `evaluate`): a strategy invocation that escapes with an
exception is converted into an error Result whose message is the literal
string of the source (the braces are not interpolated there) and whose
stacktrace is `str(exc)`. -/
def dispatch (f : EvalArgs → ExtWorld → Except PyExn Result)
    (args : EvalArgs) (ext : ExtWorld) : Result :=
  match f args ext with
  | .ok r => r
  | .error exc =>
    errorResultTb "Error occurred while running {evaluator_key} evaluation. "
      (pyStr exc)

/-- `evaluate(evaluator_key, ...)`: look the key up in the registry; an
unknown key yields the "not found" error Result, a known key runs the
strategy under the dispatcher's containment layer. -/
def evaluate (evaluator_key : String) (args : EvalArgs) (ext : ExtWorld) :
    Result :=
  match assocGet EVALUATOR_FUNCTIONS evaluator_key with
  | none =>
    errorResult ("Evaluation method '" ++ evaluator_key ++ "' not found.")
  | some evaluation_function =>
    dispatch (fun a x => Except.ok (evaluation_function a x)) args ext

/-! ### Fixtures for concrete instantiations -/

/-- A default external world for concrete instantiations. -/
def extFx : ExtWorld :=
  ExtWorld.mk (.ok (.obj [("score", .int 1)])) (.ok (.int 1)) (.ok "ok") (.ok 1)
    (.ok 1) (.ok 1) (fun _ _ => false)

/-- Arguments whose output is not valid JSON but whose reference-answer
lookup succeeds. -/
def argsFM : EvalArgs :=
  EvalArgs.mk [] (.str "not json") [("ca", .str "v")] []
    [("correct_answer_key", .str "ca"), ("json_field", .str "f")] []

/-- Arguments whose output parses to an empty JSON object (so the configured
`json_field` is missing from it). -/
def argsFM2 : EvalArgs :=
  EvalArgs.mk [] (.str "{}") [("ca", .str "v")] []
    [("correct_answer_key", .str "ca"), ("json_field", .str "f")] []

/-- Arguments with empty settings: every RAG configuration key resolves to
`None`. -/
def argsRag : EvalArgs := EvalArgs.mk [] (.obj []) [] [] [] []

/-- Arguments for the webhook scorer with a resolvable reference answer and a
configured URL. -/
def argsWH : EvalArgs :=
  EvalArgs.mk [] (.str "out") [("correct_answer", .str "ca")] []
    [("correct_answer_key", .str "correct_answer"),
     ("webhook_url", .str "http://scorer.example/score")] []

/-- An external world whose webhook responds 2xx with a JSON object whose
`score` is a string (not a number). -/
def extBadScore : ExtWorld :=
  ExtWorld.mk (.ok (.obj [("score", .str "0.5")])) (.ok (.int 1)) (.ok "ok")
    (.ok 1) (.ok 1) (.ok 1) (fun _ _ => false)

/-! ### C8 — Levenshtein metric properties -/

/-- Claim C8: `levenshtein_distance` satisfies the stated metric properties:
the distance of a string to itself is `0`, the distance from the empty string
is the length of the other operand, and the distance is symmetric. -/
theorem levenshtein_distance_metric_properties :
    (∀ s : List Char, levenshtein_distance s s = 0) ∧
    (∀ s : List Char, levenshtein_distance [] s = s.length) ∧
    (∀ s1 s2 : List Char,
      levenshtein_distance s1 s2 = levenshtein_distance s2 s1) := by
  refine ⟨fun s => ?_, fun s => ?_, fun s1 s2 => ?_⟩
  · rw [levenshtein_eq_dR, dR_self]
  · rw [levenshtein_eq_dR, dR_nil_left]
  · rw [levenshtein_eq_dR, levenshtein_eq_dR, dR_symm]

/-! ### C7 — trace path extraction -/

/-- Claim C7: `get_field_value_from_trace` is total (returns the addressed
value or absent, never raising); a segment whose plain key is one of the
administrative excluded keys yields absent immediately, whatever segments
follow; on the trace `{"a": {"b": [10, 20]}}` the path `a.b[1]` resolves to
`20`; and `cost.total` is absent on *every* trace because `cost` is excluded. -/
theorem get_field_value_from_trace_spec :
    (∀ (tree : JsonValue) (field : String) (rest : List String),
        EXCLUDED_KEYS.contains (plainSegmentKey field) = true →
        walkFields tree (field :: rest) = none) ∧
    get_field_value_from_trace
        (.obj [("a", .obj [("b", .arr [.int 10, .int 20])])]) "a.b[1]"
      = some (.int 20) ∧
    (∀ tree : JsonValue, get_field_value_from_trace tree "cost.total" = none) := by
  refine ⟨?_, rfl, fun tree => rfl⟩
  intro tree field rest hmem
  rw [walkFields]
  rcases h : segmentIdx field with _ | e
  · simp only [h]
    rw [if_pos hmem]
  · rcases e with e | i
    · simp [h]
    · simp only [h]
      rw [if_pos hmem]

/-- Concrete instantiation of the excluded-key conjunct of
`get_field_value_from_trace_spec`. -/
theorem get_field_value_from_trace_spec_witness :
    walkFields .null ["cost", "total"] = none :=
  get_field_value_from_trace_spec.1 .null "cost" ["total"] (by rfl)

/-! ### C1 — dispatcher containment -/

/-- Claim C1: `evaluate` always returns a `Result`: an unknown evaluator key
yields the error Result carrying the "not found" message; any exception
escaping a strategy call is converted at the dispatcher boundary into an
error Result; and every known key is dispatched through that containment
layer. -/
theorem evaluate_dispatch_contract :
    (∀ (key : String) (args : EvalArgs) (ext : ExtWorld),
        assocGet EVALUATOR_FUNCTIONS key = none →
        evaluate key args ext =
          errorResult ("Evaluation method '" ++ key ++ "' not found.")) ∧
    (∀ (f : EvalArgs → ExtWorld → Except PyExn Result) (args : EvalArgs)
        (ext : ExtWorld) (e : PyExn),
        f args ext = Except.error e →
        dispatch f args ext =
          errorResultTb
            "Error occurred while running {evaluator_key} evaluation. "
            (pyStr e)) ∧
    (∀ (key : String) (f : EvalFn) (args : EvalArgs) (ext : ExtWorld),
        assocGet EVALUATOR_FUNCTIONS key = some f →
        evaluate key args ext =
          dispatch (fun a x => Except.ok (f a x)) args ext) := by
  refine ⟨fun key args ext h => ?_, fun f args ext e h => ?_,
    fun key f args ext h => ?_⟩
  · rw [evaluate, h]
  · rw [dispatch, h]
  · rw [evaluate, h]

/-- Concrete instantiations of the three conjuncts of
`evaluate_dispatch_contract`: an unknown key, a strategy that raises, and a
registered key. -/
theorem evaluate_dispatch_contract_witness :
    evaluate "nonexistent_key" argsFM extFx =
      errorResult ("Evaluation method '" ++ "nonexistent_key" ++ "' not found.") ∧
    dispatch (fun _ _ => Except.error (PyExn.valueError "boom")) argsFM extFx =
      errorResultTb "Error occurred while running {evaluator_key} evaluation. "
        (pyStr (PyExn.valueError "boom")) ∧
    evaluate "auto_exact_match" argsFM extFx =
      dispatch (fun a x => Except.ok (auto_exact_match a x)) argsFM extFx := by
  refine ⟨?_, ?_, ?_⟩
  · exact evaluate_dispatch_contract.1 "nonexistent_key" argsFM extFx rfl
  · exact evaluate_dispatch_contract.2.1 _ argsFM extFx _ rfl
  · exact evaluate_dispatch_contract.2.2 "auto_exact_match" auto_exact_match
      argsFM extFx rfl

/-! ### C2 — field-match failure modes -/

/-- Claim C2 (corrected): in `field_match_test`, an output string that is not
valid JSON raises `json.JSONDecodeError`, which the `except ValueError`
branch catches *as a `ValueError` subclass*, producing an error Result (not
`False`); only the remaining failures — here, a parsed output object missing
the configured `json_field` — degrade to `Result(type="bool", value=False)`. -/
theorem field_match_failure_modes :
    (∀ (args : EvalArgs) (ext : ExtWorld) (ca : JsonValue) (m : String),
        get_correct_answer args.data_point args.settings_values =
          Except.ok ca →
        json_loads args.output = Except.error (.jsonDecodeError m) →
        field_match_test args ext = errorResult m) ∧
    (∀ (args : EvalArgs) (ext : ExtWorld) (ca : JsonValue)
        (entries : List (String × JsonValue)) (f : String),
        get_correct_answer args.data_point args.settings_values =
          Except.ok ca →
        json_loads args.output = Except.ok (.obj entries) →
        dictGetItem args.settings_values "json_field" = Except.ok (.str f) →
        assocGet entries f = none →
        field_match_test args ext =
          Result.mk "bool" (some (.bool false)) none) := by
  constructor
  · intro args ext ca m h1 h2
    simp [field_match_test, pyTry, h1, h2, except_bind_ok, except_bind_error,
      PyExn.isValueError, pyStr]
  · intro args ext ca entries f h1 h2 h3 h4
    simp [field_match_test, pyTry, h1, h2, h3, h4, except_bind_ok,
      except_bind_error, pyGetItem, PyExn.isValueError]

/-- The claim as frozen is false on the code: on a non-JSON output string
(with the reference-answer lookup succeeding) `field_match_test` returns an
*error* Result, not `Result(type="bool", value=False)`. -/
theorem field_match_invalid_json_counterexample :
    field_match_test argsFM extFx = errorResult "Expecting value" ∧
    (field_match_test argsFM extFx).type ≠ "bool" := by
  have h1 : field_match_test argsFM extFx = errorResult "Expecting value" := rfl
  refine ⟨h1, ?_⟩
  rw [h1]
  exact fun h => absurd h (by decide)

/-- Concrete instantiations of both conjuncts of `field_match_failure_modes`. -/
theorem field_match_failure_modes_witness :
    field_match_test argsFM extFx = errorResult "Expecting value" ∧
    field_match_test argsFM2 extFx = Result.mk "bool" (some (.bool false)) none := by
  constructor
  · exact field_match_failure_modes.1 argsFM extFx (.str "v") "Expecting value"
      rfl rfl
  · exact field_match_failure_modes.2 argsFM2 extFx (.str "v") [] "f"
      rfl rfl rfl rfl

/-! ### C3 — self-comparison of JSON objects -/

theorem assocGet_of_key_mem {α : Type} (d : List (String × α)) (k : String)
    (hk : k ∈ d.map Prod.fst) : ∃ v, assocGet d k = some v ∧ (k, v) ∈ d := by
  induction d with
  | nil => simp at hk
  | cons p rest ih =>
    rcases p with ⟨k0, v0⟩
    by_cases h : k0 = k
    · subst h
      exact ⟨v0, by simp [assocGet], by simp⟩
    · have hk2 : k ∈ rest.map Prod.fst := by
        rcases List.mem_cons.mp hk with h1 | h1
        · exact absurd h1.symm h
        · exact h1
      rcases ih hk2 with ⟨v, hv, hmem⟩
      exact ⟨v, by simp [assocGet, h, hv], by simp [hmem]⟩

theorem sum_map_ones (ks : List String) (f : String → ℚ)
    (h : ∀ k ∈ ks, f k = 1) : (ks.map f).sum = ks.length := by
  induction ks with
  | nil => simp
  | cons k rest ih =>
    have hk := h k (by simp)
    have hrest := ih (fun x hx => h x (by simp [hx]))
    simp [hk, hrest, add_comm]

/-- Claim C3 (corrected): self-comparison under default settings is perfect
*provided* every flattened leaf value is truthy — the code's "both present"
check drops present-but-falsy values (`0`, `""`, `False`, `None`), which
score `0.0` even against themselves, and the flattening must be non-empty or
the division raises. -/
theorem compare_jsons_self_truthy_perfect :
    ∀ (a : JsonValue) (settings : PyDict),
      truthy ((assocGet settings "predict_keys").getD (.bool false)) = false →
      truthy ((assocGet settings "compare_schema_only").getD (.bool false)) =
        false →
      truthy ((assocGet settings "case_insensitive_keys").getD (.bool false)) =
        false →
      flatten_json a ≠ [] →
      (∀ p ∈ flatten_json a, truthy p.2 = true) →
      compare_jsons a a settings = Except.ok 1 := by
  intro a settings hp hcs hci hne htr
  have hks : ∀ k ∈ dictKeys (flatten_json a),
      keyScore k (flatten_json a) (flatten_json a) false = 1 := by
    intro k hk
    rcases assocGet_of_key_mem (flatten_json a) k hk with ⟨v, hv, hmem⟩
    have htv := htr (k, v) hmem
    rw [keyScore]
    simp only [hv, Option.getD_some, htv, Bool.and_self, if_true]
    simp [diff, pyEq_refl]
  have hlen : (dictKeys (flatten_json a)).length ≠ 0 := by
    simp only [dictKeys, List.length_map]
    intro h0
    exact hne (List.length_eq_zero.mp h0)
  rw [compare_jsons]
  simp only [selected_keys, hp, Bool.false_eq_true, if_false, normalize_keys,
    hci, Bool.not_false, if_true, hcs]
  rw [if_neg hlen, sum_map_ones _ _ hks]
  rw [div_self (by exact_mod_cast hlen)]

/-- The claim as frozen is false on the code: the non-empty object
`{"k": 0}` compared with itself under default settings scores `0.0`, because
its only value is falsy and the "both present" truthiness check drops it. -/
theorem compare_jsons_self_falsy_counterexample :
    compare_jsons (.obj [("k", .int 0)]) (.obj [("k", .int 0)]) [] =
      Except.ok 0 ∧ (0 : ℚ) ≠ 1 := by
  constructor
  · simp [compare_jsons, flatten_json, flattenAux, flattenObjEntries,
      selected_keys, dictKeys, assocGet, truthy, normalize_keys, keyScore,
      diff, dictInsert, isContainer]
  · norm_num

/-- Concrete instantiation of `compare_jsons_self_truthy_perfect` on the
non-empty all-truthy object `{"k": 1}`. -/
theorem compare_jsons_self_truthy_perfect_witness :
    compare_jsons (.obj [("k", .int 1)]) (.obj [("k", .int 1)]) [] =
      Except.ok 1 :=
  compare_jsons_self_truthy_perfect (.obj [("k", .int 1)]) [] rfl rfl rfl
    (by simp [flatten_json, flattenAux, flattenObjEntries, dictInsert,
      isContainer])
    (by simp [flatten_json, flattenAux, flattenObjEntries, dictInsert,
      isContainer, truthy])

/-! ### C4 — the zero-key division is a contained error -/

theorem compare_jsons_zero_keys (gt ao : JsonValue) (settings : PyDict)
    (h : selected_keys (flatten_json gt) (flatten_json ao) settings = []) :
    compare_jsons gt ao settings = Except.error .zeroDivisionError := by
  rw [compare_jsons]
  simp only [h, List.length_nil, List.map_nil, List.sum_nil]
  simp

/-- Claim C4: an empty key view makes `compare_jsons` raise the (defined,
catchable) `ZeroDivisionError`, which `auto_json_diff` converts into the
generic JSON-diff error Result — an error outcome, not an unguarded fault. -/
theorem auto_json_diff_zero_keys_defined_error :
    (∀ (gt ao : JsonValue) (settings : PyDict),
        selected_keys (flatten_json gt) (flatten_json ao) settings = [] →
        compare_jsons gt ao settings = Except.error .zeroDivisionError) ∧
    (∀ (args : EvalArgs) (ext : ExtWorld) (gt ao : JsonValue),
        get_correct_answer args.data_point args.settings_values =
          Except.ok gt →
        json_loads args.output = Except.ok ao →
        selected_keys (flatten_json gt) (flatten_json ao)
            args.settings_values = [] →
        auto_json_diff args ext =
          errorResultTb "Error during JSON diff evaluation"
            (pyFormatExc .zeroDivisionError)) := by
  constructor
  · exact compare_jsons_zero_keys
  · intro args ext gt ao h1 h2 h3
    have hcmp := compare_jsons_zero_keys gt ao args.settings_values h3
    simp [auto_json_diff, pyTry, h1, h2, hcmp, except_bind_ok,
      except_bind_error]

/-- Concrete instantiation of `auto_json_diff_zero_keys_defined_error` on an
empty ground-truth object. -/
theorem auto_json_diff_zero_keys_defined_error_witness :
    auto_json_diff
        (EvalArgs.mk [] (.str "{}") [("ca", .obj [])] []
          [("correct_answer_key", .str "ca")] []) extFx =
      errorResultTb "Error during JSON diff evaluation"
        (pyFormatExc .zeroDivisionError) :=
  auto_json_diff_zero_keys_defined_error.2
    (EvalArgs.mk [] (.str "{}") [("ca", .obj [])] []
      [("correct_answer_key", .str "ca")] []) extFx (.obj []) (.obj [])
    rfl rfl
    (by simp [selected_keys, flatten_json, flattenAux, flattenObjEntries,
      dictKeys, assocGet, truthy])

/-! ### C10 — case-insensitive key view mismatch -/

theorem toNat_ofNat_valid {n : Nat} (h : n.isValidChar) :
    (Char.ofNat n).toNat = n := by
  rw [Char.ofNat, dif_pos h]
  simp [Char.ofNatAux, Char.toNat, UInt32.toNat]

theorem isUpper_iff (c : Char) :
    c.isUpper = true ↔ (65 ≤ c.toNat ∧ c.toNat ≤ 90) := by
  simp only [Char.isUpper, Bool.and_eq_true, decide_eq_true_eq, ge_iff_le,
    UInt32.le_def, BitVec.le_def, Char.toNat, UInt32.toNat]
  norm_num

theorem toLower_not_isUpper (c : Char) : (Char.toLower c).isUpper = false := by
  rw [Char.toLower]
  split
  · next h =>
    have hv : (Char.toNat c + 32).isValidChar := Or.inl (by omega)
    rw [Bool.eq_false_iff]
    intro hu
    have := (isUpper_iff _).mp hu
    rw [toNat_ofNat_valid hv] at this
    omega
  · next h =>
    rw [Bool.eq_false_iff]
    intro hu
    have := (isUpper_iff _).mp hu
    exact h ⟨this.1, this.2⟩

theorem pyLower_no_upper (s : String) :
    (pyLower s).data.any Char.isUpper = false := by
  rw [pyLower]
  simp [List.any_map, Function.comp, toLower_not_isUpper]

theorem assocGet_eq_none_of_not_mem {α : Type} (d : List (String × α))
    (k : String) (h : k ∉ d.map Prod.fst) : assocGet d k = none := by
  induction d with
  | nil => rfl
  | cons p rest ih =>
    rcases p with ⟨k0, v0⟩
    have hne : k0 ≠ k := by
      intro he
      exact h (by simp [he])
    rw [assocGet, if_neg hne]
    exact ih (fun hm => h (by simp [hm]))

theorem mem_keys_dictInsert (d : PyDict) (k0 k : String) (v : JsonValue)
    (h : k ∈ (dictInsert d k0 v).map Prod.fst) :
    k = k0 ∨ k ∈ d.map Prod.fst := by
  induction d with
  | nil =>
    simp [dictInsert] at h
    exact Or.inl h
  | cons p rest ih =>
    rcases p with ⟨k1, v1⟩
    rw [dictInsert] at h
    by_cases he : k1 = k0
    · rw [if_pos he] at h
      simp only [List.map_cons, List.mem_cons] at h
      rcases h with h1 | h1
      · exact Or.inl (by rw [h1, he])
      · exact Or.inr (by simp only [List.map_cons, List.mem_cons]; exact Or.inr h1)
    · rw [if_neg he] at h
      simp only [List.map_cons, List.mem_cons] at h
      rcases h with h1 | h1
      · exact Or.inr (by simp only [List.map_cons, List.mem_cons]; exact Or.inl h1)
      · rcases ih h1 with h2 | h2
        · exact Or.inl h2
        · exact Or.inr (by simp only [List.map_cons, List.mem_cons]; exact Or.inr h2)

theorem mem_keys_normalize_aux (d : List (String × JsonValue)) :
    ∀ (acc : PyDict) (k : String),
      k ∈ (d.foldl (fun a kv => dictInsert a (pyLower kv.1) kv.2) acc).map
            Prod.fst →
      k ∈ acc.map Prod.fst ∨ ∃ k0, k = pyLower k0 := by
  induction d with
  | nil => intro acc k h; exact Or.inl h
  | cons p rest ih =>
    intro acc k h
    rw [List.foldl_cons] at h
    rcases ih (dictInsert acc (pyLower p.1) p.2) k h with h1 | h1
    · rcases mem_keys_dictInsert acc (pyLower p.1) k p.2 h1 with h2 | h2
      · exact Or.inr ⟨p.1, h2⟩
      · exact Or.inl h2
    · exact Or.inr h1

theorem mem_keys_normalize (d : PyDict) (k : String)
    (h : k ∈ (normalize_keys d true).map Prod.fst) : ∃ k0, k = pyLower k0 := by
  rw [normalize_keys] at h
  simp only [Bool.not_true, Bool.false_eq_true, if_false] at h
  rcases mem_keys_normalize_aux d [] k h with h1 | h1
  · simp at h1
  · exact h1

theorem keyScore_zero_of_upper (d d2 : PyDict) (key : String) (cso : Bool)
    (h : key.data.any Char.isUpper = true) :
    keyScore key (normalize_keys d true) (normalize_keys d2 true) cso = 0 := by
  have hnone : assocGet (normalize_keys d true) key = none := by
    apply assocGet_eq_none_of_not_mem
    intro hmem
    rcases mem_keys_normalize d key hmem with ⟨k0, hk0⟩
    rw [hk0, pyLower_no_upper] at h
    exact Bool.false_ne_true h
  rw [keyScore]
  simp [hnone, truthy]

/-- Claim C10: with `case_insensitive_keys` enabled (and `predict_keys`
unset), the key view is captured before normalization while lookups go to the
lower-cased dicts, so a ground-truth key containing an uppercase letter
scores `0.0` even when the candidate matches it exactly — in particular
`{"K": 1}` compared with itself scores `0.0`. -/
theorem compare_jsons_case_insensitive_key_view_mismatch :
    (∀ (gt ao : JsonValue) (cso : Bool) (key : String),
        key.data.any Char.isUpper = true →
        keyScore key (normalize_keys (flatten_json gt) true)
          (normalize_keys (flatten_json ao) true) cso = 0) ∧
    compare_jsons (.obj [("K", .int 1)]) (.obj [("K", .int 1)])
        [("case_insensitive_keys", .bool true)] = Except.ok 0 := by
  constructor
  · intro gt ao cso key h
    exact keyScore_zero_of_upper _ _ key cso h
  · simp [compare_jsons, flatten_json, flattenAux, flattenObjEntries,
      selected_keys, dictKeys, assocGet, truthy, normalize_keys, keyScore,
      diff, dictInsert, isContainer, pyLower, Char.toLower]

/-- Concrete instantiation of the per-key conjunct of
`compare_jsons_case_insensitive_key_view_mismatch` on the key `"K"`. -/
theorem compare_jsons_case_insensitive_key_view_mismatch_witness :
    keyScore "K" (normalize_keys (flatten_json (.obj [("K", .int 1)])) true)
      (normalize_keys (flatten_json (.obj [("K", .int 1)])) true) false = 0 :=
  compare_jsons_case_insensitive_key_view_mismatch.1 (.obj [("K", .int 1)])
    (.obj [("K", .int 1)]) false "K" (by decide)

/-! ### C5 — webhook error classification -/

theorem isNull_false_of_numVal {v : JsonValue} {q : ℚ}
    (h : numVal v = some q) : isNull v = false := by
  cases v <;> simp_all [numVal, isNull]

theorem getD_null_of_optIsNone {o : Option JsonValue}
    (h : optIsNone o = true) : o.getD .null = .null := by
  cases o with
  | none => rfl
  | some v => cases v <;> simp_all [optIsNone, isNull]

/-- Claim C5 (corrected): on a 2xx JSON object response, a missing (or
`None`) `score` and a numeric score outside `[0,1]` each produce a dedicated
contract-violation error message (no stacktrace), distinct from the
transport (`HTTP -`) and decode (`JSON -`) classifications; but a
*non-numeric* score is not separately classified: it falls through to the
`score < 0` comparison, whose `TypeError` lands in the generic
`Exception -` handler like any internal error. -/
theorem auto_webhook_error_classification :
    (∀ (args : EvalArgs) (ext : ExtWorld) (ca u : JsonValue) (d : PyDict),
        get_correct_answer args.data_point args.settings_values =
          Except.ok ca →
        assocGet args.settings_values "webhook_url" = some u →
        ext.webhookPost = Except.ok (.obj d) →
        optIsNone (assocGet d "score") = true →
        auto_webhook_test args ext =
          errorResult
            "Error during Auto Webhook evaluation; Webhook did not return a score") ∧
    (∀ (args : EvalArgs) (ext : ExtWorld) (ca u v : JsonValue) (d : PyDict)
        (q : ℚ),
        get_correct_answer args.data_point args.settings_values =
          Except.ok ca →
        assocGet args.settings_values "webhook_url" = some u →
        ext.webhookPost = Except.ok (.obj d) →
        assocGet d "score" = some v →
        numVal v = some q →
        (q < 0 ∨ q > 1) →
        auto_webhook_test args ext =
          errorResult
            "Error during Auto Webhook evaluation; Webhook returned an invalid score. Score must be between 0 and 1") ∧
    (∀ (args : EvalArgs) (ext : ExtWorld) (ca u : JsonValue) (m : String),
        get_correct_answer args.data_point args.settings_values =
          Except.ok ca →
        assocGet args.settings_values "webhook_url" = some u →
        ext.webhookPost = Except.error (.httpError m) →
        auto_webhook_test args ext =
          errorResultTb ("[webhook evaluation] HTTP - " ++ pyRepr (.httpError m))
            (pyFormatExc (.httpError m))) ∧
    (∀ (args : EvalArgs) (ext : ExtWorld) (ca u : JsonValue) (m : String),
        get_correct_answer args.data_point args.settings_values =
          Except.ok ca →
        assocGet args.settings_values "webhook_url" = some u →
        ext.webhookPost = Except.error (.jsonDecodeError m) →
        auto_webhook_test args ext =
          errorResultTb
            ("[webhook evaluation] JSON - " ++ pyRepr (.jsonDecodeError m))
            (pyFormatExc (.jsonDecodeError m))) ∧
    (∀ (args : EvalArgs) (ext : ExtWorld) (ca u : JsonValue) (d : PyDict)
        (s : String),
        get_correct_answer args.data_point args.settings_values =
          Except.ok ca →
        assocGet args.settings_values "webhook_url" = some u →
        ext.webhookPost = Except.ok (.obj d) →
        assocGet d "score" = some (.str s) →
        auto_webhook_test args ext =
          errorResultTb
            ("[webhook evaluation] Exception - " ++
              pyRepr
                (.typeError
                  "'<' not supported between instances of 'str' and 'int'") ++
              " ")
            (pyFormatExc
              (.typeError
                "'<' not supported between instances of 'str' and 'int'"))) := by
  refine ⟨?_, ?_, ?_, ?_, ?_⟩
  · intro args ext ca u d h1 h2 h3 h4
    have hget : dictGetItem args.settings_values "webhook_url" = Except.ok u := by
      simp [dictGetItem, h2]
    have hscore := getD_null_of_optIsNone h4
    simp [auto_webhook_test, pyTry, h1, hget, h3, hscore, webhookScore,
      except_bind_ok, isNull]
  · intro args ext ca u v d q h1 h2 h3 h4 h5 h6
    have hget : dictGetItem args.settings_values "webhook_url" = Except.ok u := by
      simp [dictGetItem, h2]
    have hnn := isNull_false_of_numVal h5
    by_cases hlt : q < 0
    · simp [auto_webhook_test, pyTry, h1, hget, h3, h4, hnn, pyLtNum, h5, hlt,
        webhookScore, except_bind_ok]
    · have hgt : q > 1 := h6.resolve_left hlt
      simp [auto_webhook_test, pyTry, h1, hget, h3, h4, hnn, pyLtNum, pyGtNum,
        h5, hlt, hgt, webhookScore, except_bind_ok]
  · intro args ext ca u m h1 h2 h3
    have hget : dictGetItem args.settings_values "webhook_url" = Except.ok u := by
      simp [dictGetItem, h2]
    simp [auto_webhook_test, pyTry, h1, hget, h3, except_bind_ok,
      except_bind_error, PyExn.isHttpError]
  · intro args ext ca u m h1 h2 h3
    have hget : dictGetItem args.settings_values "webhook_url" = Except.ok u := by
      simp [dictGetItem, h2]
    simp [auto_webhook_test, pyTry, h1, hget, h3, except_bind_ok,
      except_bind_error, PyExn.isHttpError, PyExn.isJsonDecodeError]
  · intro args ext ca u d s h1 h2 h3 h4
    have hget : dictGetItem args.settings_values "webhook_url" = Except.ok u := by
      simp [dictGetItem, h2]
    simp [auto_webhook_test, pyTry, h1, hget, h3, h4, webhookScore,
      except_bind_ok, except_bind_error, isNull, pyLtNum, numVal, pyType,
      PyExn.isHttpError, PyExn.isJsonDecodeError]

/-- The claim as frozen is false on the code: a 2xx JSON response whose
`score` is the string `"0.5"` is not answered with a contract-violation
message; it produces the generic `Exception -` classification (with a
stacktrace) raised by comparing a string against `0`. -/
theorem auto_webhook_nonnumeric_score_counterexample :
    auto_webhook_test argsWH extBadScore =
      errorResultTb
        ("[webhook evaluation] Exception - " ++
          pyRepr
            (.typeError "'<' not supported between instances of 'str' and 'int'") ++
          " ")
        (pyFormatExc
          (.typeError "'<' not supported between instances of 'str' and 'int'")) ∧
    (auto_webhook_test argsWH extBadScore).error.map Error.message ≠
      some "Error during Auto Webhook evaluation; Webhook did not return a score" ∧
    (auto_webhook_test argsWH extBadScore).error.map Error.message ≠
      some
        "Error during Auto Webhook evaluation; Webhook returned an invalid score. Score must be between 0 and 1" := by
  refine ⟨rfl, by decide, by decide⟩

/-- Concrete instantiations of all five conjuncts of
`auto_webhook_error_classification`. -/
theorem auto_webhook_error_classification_witness :
    auto_webhook_test argsWH
        (ExtWorld.mk (.ok (.obj [])) (.ok (.int 1)) (.ok "ok") (.ok 1) (.ok 1)
          (.ok 1) (fun _ _ => false)) =
      errorResult
        "Error during Auto Webhook evaluation; Webhook did not return a score" ∧
    auto_webhook_test argsWH
        (ExtWorld.mk (.ok (.obj [("score", .int 2)])) (.ok (.int 1)) (.ok "ok")
          (.ok 1) (.ok 1) (.ok 1) (fun _ _ => false)) =
      errorResult
        "Error during Auto Webhook evaluation; Webhook returned an invalid score. Score must be between 0 and 1" ∧
    auto_webhook_test argsWH
        (ExtWorld.mk (.error (.httpError "Server error '500 Internal Server Error'"))
          (.ok (.int 1)) (.ok "ok") (.ok 1) (.ok 1) (.ok 1) (fun _ _ => false)) =
      errorResultTb
        ("[webhook evaluation] HTTP - " ++
          pyRepr (.httpError "Server error '500 Internal Server Error'"))
        (pyFormatExc (.httpError "Server error '500 Internal Server Error'")) ∧
    auto_webhook_test argsWH
        (ExtWorld.mk (.error (.jsonDecodeError "Expecting value")) (.ok (.int 1))
          (.ok "ok") (.ok 1) (.ok 1) (.ok 1) (fun _ _ => false)) =
      errorResultTb
        ("[webhook evaluation] JSON - " ++ pyRepr (.jsonDecodeError "Expecting value"))
        (pyFormatExc (.jsonDecodeError "Expecting value")) ∧
    auto_webhook_test argsWH extBadScore =
      errorResultTb
        ("[webhook evaluation] Exception - " ++
          pyRepr
            (.typeError "'<' not supported between instances of 'str' and 'int'") ++
          " ")
        (pyFormatExc
          (.typeError "'<' not supported between instances of 'str' and 'int'")) := by
  refine ⟨?_, ?_, ?_, ?_, ?_⟩
  · exact auto_webhook_error_classification.1 argsWH _ (.str "ca")
      (.str "http://scorer.example/score") [] rfl rfl rfl rfl
  · exact auto_webhook_error_classification.2.1 argsWH _ (.str "ca")
      (.str "http://scorer.example/score") (.int 2) [("score", .int 2)] 2
      rfl rfl rfl rfl rfl (Or.inr (by norm_num))
  · exact auto_webhook_error_classification.2.2.1 argsWH _ (.str "ca")
      (.str "http://scorer.example/score") "Server error '500 Internal Server Error'"
      rfl rfl rfl
  · exact auto_webhook_error_classification.2.2.2.1 argsWH _ (.str "ca")
      (.str "http://scorer.example/score") "Expecting value" rfl rfl rfl
  · exact auto_webhook_error_classification.2.2.2.2 argsWH extBadScore
      (.str "ca") (.str "http://scorer.example/score") [("score", .str "0.5")]
      "0.5" rfl rfl rfl rfl

/-! ### C6 — stacktrace policy for validation failures -/

/-- Claim C6 (corrected): the evaluators that catch `ValueError` separately
(`auto_exact_match`, `field_match_test`, `auto_levenshtein_distance`,
`auto_similarity_match`) return validation failures as error Results whose
`Error` has no stacktrace; but evaluators with only the generic handler do
not — `rag_faithfulness` answers its own missing-configuration `ValueError`
with a generic message *and* a stacktrace. -/
theorem validation_error_stacktrace_policy :
    (∀ (args : EvalArgs) (ext : ExtWorld) (m : String),
        get_correct_answer args.data_point args.settings_values =
          Except.error (.valueError m) →
        auto_exact_match args ext = errorResult m ∧
        field_match_test args ext = errorResult m ∧
        auto_levenshtein_distance args ext = errorResult m ∧
        auto_similarity_match args ext = errorResult m) ∧
    (∀ (args : EvalArgs) (ext : ExtWorld) (av cv : JsonValue),
        get_user_key_from_settings args.settings_values "question_key" =
          Except.ok .null →
        get_user_key_from_settings args.settings_values "answer_key" =
          Except.ok av →
        get_user_key_from_settings args.settings_values "contexts_key" =
          Except.ok cv →
        rag_faithfulness args ext =
          errorResultTb "Error during RAG Faithfulness evaluation"
            (pyFormatExc (.valueError ragMissingConfigMsg))) := by
  constructor
  · intro args ext m h
    refine ⟨?_, ?_, ?_, ?_⟩
    · simp [auto_exact_match, pyTry, h, except_bind_error, PyExn.isValueError,
        pyStr]
    · simp [field_match_test, pyTry, h, except_bind_error, PyExn.isValueError,
        pyStr]
    · simp [auto_levenshtein_distance, pyTry, h, except_bind_error,
        PyExn.isValueError, pyStr]
    · simp [auto_similarity_match, pyTry, h, except_bind_error,
        PyExn.isValueError, pyStr]
  · intro args ext av cv h1 h2 h3
    simp [rag_faithfulness, pyTry, h1, h2, h3, pyAssertNot, except_bind_ok,
      except_bind_error, except_throw_eq, isNull]

/-- The claim as frozen is false on the code: `rag_faithfulness` with empty
settings — a validation failure (missing configuration keys) — returns an
error Result that *does* carry a stacktrace. -/
theorem rag_faithfulness_validation_stacktrace_counterexample :
    rag_faithfulness argsRag extFx =
      errorResultTb "Error during RAG Faithfulness evaluation"
        (pyFormatExc (.valueError ragMissingConfigMsg)) ∧
    (rag_faithfulness argsRag extFx).error.map Error.stacktrace =
      some (some (pyFormatExc (.valueError ragMissingConfigMsg))) := by
  exact ⟨rfl, rfl⟩

/-- Concrete instantiations of both conjuncts of
`validation_error_stacktrace_policy` on empty settings. -/
theorem validation_error_stacktrace_policy_witness :
    auto_exact_match argsRag extFx =
      errorResult "No correct answer keys provided." ∧
    rag_faithfulness argsRag extFx =
      errorResultTb "Error during RAG Faithfulness evaluation"
        (pyFormatExc (.valueError ragMissingConfigMsg)) := by
  constructor
  · exact (validation_error_stacktrace_policy.1 argsRag extFx
      "No correct answer keys provided." rfl).1
  · exact validation_error_stacktrace_policy.2 argsRag extFx .null .null
      rfl rfl rfl

/-! ### C9 — the Result discriminant invariant -/

/-- The discriminant invariant of the `Result` envelope: `error` is `None`
whenever `type` is not `"error"`, and `value` is `None` when it is. -/
def resultInvB (r : Result) : Bool :=
  if r.type = "error" then r.value.isNone else r.error.isNone

@[simp] theorem resultInvB_errorResult (m : String) :
    resultInvB (errorResult m) = true := rfl

@[simp] theorem resultInvB_errorResultTb (m s : String) :
    resultInvB (errorResultTb m s) = true := rfl

@[simp] theorem resultInvB_mk_bool (v : Option JsonValue) :
    resultInvB (Result.mk "bool" v none) = true := rfl

@[simp] theorem resultInvB_mk_number (v : Option JsonValue) :
    resultInvB (Result.mk "number" v none) = true := rfl

@[simp] theorem resultInvB_mk_text (v : Option JsonValue) :
    resultInvB (Result.mk "text" v none) = true := rfl

theorem pyTry_inv (body : Except PyExn Result) (handler : PyExn → Result)
    (hok : ∀ r, body = Except.ok r → resultInvB r = true)
    (herr : ∀ e, resultInvB (handler e) = true) :
    resultInvB (pyTry body handler) = true := by
  cases hbody : body with
  | ok r => simpa [pyTry] using hok r hbody
  | error e => simpa [pyTry] using herr e

theorem except_ok_of_bind_ok {α β : Type} {a : Except PyExn α}
    {f : α → Except PyExn β} {b : β} (h : (a >>= f) = Except.ok b) :
    ∃ x, a = Except.ok x ∧ f x = Except.ok b := by
  cases a with
  | ok x => exact ⟨x, rfl, h⟩
  | error e => rw [except_bind_error] at h; cases h

theorem except_ok_of_map_ok {α β : Type} {f : α → β} {a : Except PyExn α}
    {b : β} (h : (f <$> a) = Except.ok b) :
    ∃ x, a = Except.ok x ∧ f x = b := by
  cases a with
  | ok x =>
    refine ⟨x, rfl, ?_⟩
    rw [show (f <$> (Except.ok x : Except PyExn α)) = Except.ok (f x) from rfl]
      at h
    cases h
    rfl
  | error e =>
    rw [show (f <$> (Except.error e : Except PyExn α)) = Except.error e from
      rfl] at h
    cases h

theorem inv_auto_exact_match (args : EvalArgs) (ext : ExtWorld) :
    resultInvB (auto_exact_match args ext) = true := by
  apply pyTry_inv
  · intro r h
    rcases except_ok_of_map_ok h with ⟨ca, h1, h2⟩
    rw [← h2]
    simp
  · intro e
    by_cases hv : e.isValueError <;> simp [hv]

theorem inv_auto_regex_test (args : EvalArgs) (ext : ExtWorld) :
    resultInvB (auto_regex_test args ext) = true := by
  apply pyTry_inv
  · intro r h
    rcases except_ok_of_bind_ok h with ⟨pat, h1, h⟩
    rcases except_ok_of_bind_ok h with ⟨patS, h2, h⟩
    rcases except_ok_of_bind_ok h with ⟨outS, h3, h⟩
    rcases except_ok_of_map_ok h with ⟨expected, h4, h5⟩
    rw [← h5]
    simp
  · intro e; simp

theorem inv_field_match_test (args : EvalArgs) (ext : ExtWorld) :
    resultInvB (field_match_test args ext) = true := by
  apply pyTry_inv
  · intro r h
    rcases except_ok_of_bind_ok h with ⟨ca, h1, h⟩
    rcases except_ok_of_bind_ok h with ⟨oj, h2, h⟩
    rcases except_ok_of_bind_ok h with ⟨field, h3, h⟩
    rcases except_ok_of_map_ok h with ⟨fv, h4, h5⟩
    rw [← h5]
    simp
  · intro e
    by_cases hv : e.isValueError <;> simp [hv]

theorem inv_auto_webhook_test (args : EvalArgs) (ext : ExtWorld) :
    resultInvB (auto_webhook_test args ext) = true := by
  apply pyTry_inv
  · intro r h
    rcases except_ok_of_bind_ok h with ⟨ca, h1, h⟩
    rcases except_ok_of_bind_ok h with ⟨u, h2, h⟩
    rcases except_ok_of_bind_ok h with ⟨resp, h3, h⟩
    rcases except_ok_of_bind_ok h with ⟨score, h4, h⟩
    split at h
    · rw [except_pure_eq] at h
      cases h
      simp
    · rcases except_ok_of_bind_ok h with ⟨lt, h5, h⟩
      split at h
      · rw [except_pure_eq] at h
        cases h
        simp
      · rcases except_ok_of_bind_ok h with ⟨gt, h6, h⟩
        split at h <;> (rw [except_pure_eq] at h; cases h; simp)
  · intro e
    by_cases h1 : e.isHttpError <;> by_cases h2 : e.isJsonDecodeError <;>
      simp [h1, h2]

theorem inv_auto_custom_code_run (args : EvalArgs) (ext : ExtWorld) :
    resultInvB (auto_custom_code_run args ext) = true := by
  apply pyTry_inv
  · intro r h
    rcases except_ok_of_bind_ok h with ⟨code, h1, h⟩
    rcases except_ok_of_map_ok h with ⟨v, h2, h3⟩
    rw [← h3]
    simp
  · intro e; simp

theorem inv_auto_ai_critique (args : EvalArgs) (ext : ExtWorld) :
    resultInvB (auto_ai_critique args ext) = true := by
  apply pyTry_inv
  · intro r h
    rcases except_ok_of_bind_ok h with ⟨ca, h1, h⟩
    rcases except_ok_of_bind_ok h with ⟨key, h2, h⟩
    rcases except_ok_of_bind_ok h with ⟨pt, h3, h⟩
    rcases except_ok_of_map_ok h with ⟨completion, h4, h5⟩
    rw [← h5]
    simp
  · intro e; simp

theorem inv_auto_starts_with (args : EvalArgs) (ext : ExtWorld) :
    resultInvB (auto_starts_with args ext) = true := by
  apply pyTry_inv
  · intro r h
    rcases except_ok_of_bind_ok h with ⟨pair, h1, h⟩
    rcases except_ok_of_map_ok h with ⟨b, h2, h3⟩
    rw [← h3]
    simp
  · intro e; simp

theorem inv_auto_ends_with (args : EvalArgs) (ext : ExtWorld) :
    resultInvB (auto_ends_with args ext) = true := by
  apply pyTry_inv
  · intro r h
    rcases except_ok_of_bind_ok h with ⟨pair, h1, h⟩
    rcases except_ok_of_map_ok h with ⟨b, h2, h3⟩
    rw [← h3]
    simp
  · intro e; simp

theorem inv_auto_contains (args : EvalArgs) (ext : ExtWorld) :
    resultInvB (auto_contains args ext) = true := by
  apply pyTry_inv
  · intro r h
    rcases except_ok_of_bind_ok h with ⟨pair, h1, h⟩
    rcases except_ok_of_map_ok h with ⟨b, h2, h3⟩
    rw [← h3]
    simp
  · intro e; simp

theorem inv_auto_contains_any (args : EvalArgs) (ext : ExtWorld) :
    resultInvB (auto_contains_any args ext) = true := by
  apply pyTry_inv
  · intro r h
    rcases except_ok_of_bind_ok h with ⟨ss, h1, h⟩
    rcases except_ok_of_bind_ok h with ⟨pair, h2, h⟩
    rcases except_ok_of_map_ok h with ⟨b, h3, h4⟩
    rw [← h4]
    simp
  · intro e; simp

theorem inv_auto_contains_all (args : EvalArgs) (ext : ExtWorld) :
    resultInvB (auto_contains_all args ext) = true := by
  apply pyTry_inv
  · intro r h
    rcases except_ok_of_bind_ok h with ⟨ss, h1, h⟩
    rcases except_ok_of_bind_ok h with ⟨pair, h2, h⟩
    rcases except_ok_of_map_ok h with ⟨b, h3, h4⟩
    rw [← h4]
    simp
  · intro e; simp

theorem inv_auto_contains_json (args : EvalArgs) (ext : ExtWorld) :
    resultInvB (auto_contains_json args ext) = true := by
  apply pyTry_inv
  · intro r h
    rcases except_ok_of_map_ok h with ⟨b, h1, h2⟩
    rw [← h2]
    simp
  · intro e; simp

theorem inv_auto_json_diff (args : EvalArgs) (ext : ExtWorld) :
    resultInvB (auto_json_diff args ext) = true := by
  apply pyTry_inv
  · intro r h
    rcases except_ok_of_bind_ok h with ⟨ca, h1, h⟩
    rcases except_ok_of_bind_ok h with ⟨parsed, h2, h⟩
    rcases except_ok_of_map_ok h with ⟨score, h3, h4⟩
    rw [← h4]
    simp
  · intro e; simp

theorem inv_auto_semantic_similarity (args : EvalArgs) (ext : ExtWorld) :
    resultInvB (auto_semantic_similarity args ext) = true := by
  apply pyTry_inv
  · intro r h
    rcases except_ok_of_bind_ok h with ⟨key, h1, h⟩
    rcases except_ok_of_bind_ok h with ⟨ca, h2, h⟩
    rcases except_ok_of_map_ok h with ⟨score, h3, h4⟩
    rw [← h4]
    simp
  · intro e; simp

theorem inv_auto_levenshtein_distance (args : EvalArgs) (ext : ExtWorld) :
    resultInvB (auto_levenshtein_distance args ext) = true := by
  apply pyTry_inv
  · intro r h
    rcases except_ok_of_bind_ok h with ⟨ca, h1, h⟩
    rcases except_ok_of_bind_ok h with ⟨pair, h2, h⟩
    split at h
    · rcases except_ok_of_map_ok h with ⟨b, h3, h4⟩
      rw [← h4]
      simp
    · rw [except_pure_eq] at h
      cases h
      simp
  · intro e
    by_cases hv : e.isValueError <;> simp [hv]

theorem inv_auto_similarity_match (args : EvalArgs) (ext : ExtWorld) :
    resultInvB (auto_similarity_match args ext) = true := by
  apply pyTry_inv
  · intro r h
    rcases except_ok_of_bind_ok h with ⟨ca, h1, h⟩
    rcases except_ok_of_bind_ok h with ⟨o, h2, h⟩
    rcases except_ok_of_bind_ok h with ⟨c, h3, h⟩
    rcases except_ok_of_bind_ok h with ⟨sim, h4, h⟩
    rcases except_ok_of_bind_ok h with ⟨thr, h5, h⟩
    rcases except_ok_of_map_ok h with ⟨b, h6, h7⟩
    rw [← h7]
    simp
  · intro e
    by_cases hv : e.isValueError <;> simp [hv]

theorem inv_rag_faithfulness (args : EvalArgs) (ext : ExtWorld) :
    resultInvB (rag_faithfulness args ext) = true := by
  apply pyTry_inv
  · intro r h
    rcases except_ok_of_bind_ok h with ⟨qk, h1, h⟩
    rcases except_ok_of_bind_ok h with ⟨ak, h2, h⟩
    rcases except_ok_of_bind_ok h with ⟨ck, h3, h⟩
    rcases except_ok_of_bind_ok h with ⟨u1, h4, h⟩
    rcases except_ok_of_bind_ok h with ⟨qv, h5, h⟩
    rcases except_ok_of_bind_ok h with ⟨av, h6, h⟩
    rcases except_ok_of_bind_ok h with ⟨cv, h7, h⟩
    rcases except_ok_of_bind_ok h with ⟨u2, h8, h⟩
    rcases except_ok_of_map_ok h with ⟨score, h9, h10⟩
    rw [← h10]
    simp
  · intro e; simp

theorem inv_rag_context_relevancy (args : EvalArgs) (ext : ExtWorld) :
    resultInvB (rag_context_relevancy args ext) = true := by
  apply pyTry_inv
  · intro r h
    rcases except_ok_of_bind_ok h with ⟨qk, h1, h⟩
    rcases except_ok_of_bind_ok h with ⟨ak, h2, h⟩
    rcases except_ok_of_bind_ok h with ⟨ck, h3, h⟩
    rcases except_ok_of_bind_ok h with ⟨u1, h4, h⟩
    rcases except_ok_of_bind_ok h with ⟨qv, h5, h⟩
    rcases except_ok_of_bind_ok h with ⟨av, h6, h⟩
    rcases except_ok_of_bind_ok h with ⟨cv, h7, h⟩
    rcases except_ok_of_bind_ok h with ⟨u2, h8, h⟩
    rcases except_ok_of_map_ok h with ⟨score, h9, h10⟩
    rw [← h10]
    simp
  · intro e; simp

theorem assocGet_mem_values {α : Type} {l : List (String × α)} {k : String}
    {v : α} (h : assocGet l k = some v) : v ∈ l.map Prod.snd := by
  induction l with
  | nil => cases h
  | cons p rest ih =>
    rw [assocGet] at h
    split at h
    · cases h; simp
    · simp [ih h]

/-- Claim C9: every `Result` produced by `evaluate`, for any evaluator key,
arguments and external outcomes, satisfies the discriminant invariant:
`error = None` whenever the type is not `"error"`, and `value = None`
whenever it is. -/
theorem evaluate_result_discriminant_invariant (key : String) (args : EvalArgs)
    (ext : ExtWorld) : resultInvB (evaluate key args ext) = true := by
  rw [evaluate]
  cases hk : assocGet EVALUATOR_FUNCTIONS key with
  | none => simp
  | some f =>
    have hmem := assocGet_mem_values hk
    simp only [EVALUATOR_FUNCTIONS, List.map_cons, List.map_nil,
      List.mem_cons, List.not_mem_nil, or_false] at hmem
    rcases hmem with rfl | rfl | rfl | rfl | rfl | rfl | rfl | rfl | rfl |
      rfl | rfl | rfl | rfl | rfl | rfl | rfl | rfl | rfl
    · exact inv_auto_exact_match args ext
    · exact inv_auto_regex_test args ext
    · exact inv_field_match_test args ext
    · exact inv_auto_webhook_test args ext
    · exact inv_auto_custom_code_run args ext
    · exact inv_auto_ai_critique args ext
    · exact inv_auto_starts_with args ext
    · exact inv_auto_ends_with args ext
    · exact inv_auto_contains args ext
    · exact inv_auto_contains_any args ext
    · exact inv_auto_contains_all args ext
    · exact inv_auto_contains_json args ext
    · exact inv_auto_json_diff args ext
    · exact inv_auto_semantic_similarity args ext
    · exact inv_auto_levenshtein_distance args ext
    · exact inv_auto_similarity_match args ext
    · exact inv_rag_faithfulness args ext
    · exact inv_rag_context_relevancy args ext
